import Mathlib

/-!
Verification development for the simulation core of `src/xorx.c`
("Kingdom of Xorx"), a tile-grid game: a 512x256 world of cells, each cell
holding a tile kind and an 8-bit wake tick, driven by a global 8-bit tick
counter over a 32x16 viewport.

The C source is embedded shallowly: the global `state.game` structure
becomes the explicit state record `game_t`, every gameplay routine becomes
a pure function threading that record, machine `uint8_t` arithmetic
becomes `Nat` arithmetic with explicit `% 256` at each store, and `int`
coordinates/stats become `Int`.  External collaborators (SDL window, audio,
the draw surface) do not touch `state.game` and are dropped; the level
bitmap read by `start_game` is abstracted as an optional `surface_t` value,
and the abstract button state read by the input routines is passed as an
explicit `input_t` record.
-/

set_option maxRecDepth 1000000

namespace Xorx

/-- Engine constants from the `enum` block of xorx.c. -/
def MAP_COLS : Int := 512

/-- Map height in tiles. -/
def MAP_ROWS : Int := 256

/-- View width in tiles. -/
def VIEW_COLS : Int := 32

/-- View height in tiles. -/
def VIEW_ROWS : Int := 16

/-- Tile constant: empty cell (`TILE_EMPTY = 0`). -/
def TILE_EMPTY : Nat := 0

/-- Tile constant: life pickup (`TILE_LIFE = 16`). -/
def TILE_LIFE : Nat := 16

/-- Tile constant: ammo pickup. -/
def TILE_AMMO : Nat := 17

/-- Tile constant: flask pickup. -/
def TILE_FLASK : Nat := 18

/-- Tile constant: key pickup. -/
def TILE_KEY : Nat := 19

/-- Tile constant: first wall variant (`TILE_WALL_0 = 128`). -/
def TILE_WALL_0 : Nat := 128

/-- Tile constant: second wall variant. -/
def TILE_WALL_1 : Nat := 129

/-- Tile constant: third wall variant. -/
def TILE_WALL_2 : Nat := 130

/-- Tile constant: fourth wall variant. -/
def TILE_WALL_3 : Nat := 131

/-- Tile constant: first ruin variant. -/
def TILE_RUIN_0 : Nat := 132

/-- Tile constant: second ruin variant. -/
def TILE_RUIN_1 : Nat := 133

/-- Tile constant: first tree variant. -/
def TILE_TREE_0 : Nat := 134

/-- Tile constant: third tree variant (dead tree). -/
def TILE_TREE_2 : Nat := 136

/-- Tile constant: first grass variant. -/
def TILE_GRASS_0 : Nat := 138

/-- Tile constant: second grass variant. -/
def TILE_GRASS_1 : Nat := 139

/-- Tile constant: first water frame. -/
def TILE_WATER_0 : Nat := 140

/-- Tile constant: second water frame. -/
def TILE_WATER_1 : Nat := 141

/-- Tile constant: first explosion frame. -/
def TILE_EXPLOSION_0 : Nat := 144

/-- Tile constant: second explosion frame. -/
def TILE_EXPLOSION_1 : Nat := 145

/-- Tile constant: third explosion frame. -/
def TILE_EXPLOSION_2 : Nat := 146

/-- Tile constant: fourth explosion frame. -/
def TILE_EXPLOSION_3 : Nat := 147

/-- Tile constant: first monster-spawn frame. -/
def TILE_SPAWN_0 : Nat := 148

/-- Tile constant: second monster-spawn frame. -/
def TILE_SPAWN_1 : Nat := 149

/-- Tile constant: third monster-spawn frame. -/
def TILE_SPAWN_2 : Nat := 150

/-- Tile constant: fourth monster-spawn frame. -/
def TILE_SPAWN_3 : Nat := 151

/-- Tile constant: arrow travelling north. -/
def TILE_ARROW_N : Nat := 152

/-- Tile constant: wet arrow travelling north. -/
def TILE_WARROW_N : Nat := 156

/-- Tile constant: weakest monster tier. -/
def TILE_MONSTER_0 : Nat := 160

/-- Tile constant: monster tier 1. -/
def TILE_MONSTER_1 : Nat := 161

/-- Tile constant: monster tier 2. -/
def TILE_MONSTER_2 : Nat := 162

/-- Tile constant: monster tier 3. -/
def TILE_MONSTER_3 : Nat := 163

/-- Tile constant: player standing pose. -/
def TILE_PLAYER_STAND : Nat := 164

/-- Tile constant: player shooting pose. -/
def TILE_PLAYER_SHOOT : Nat := 165

/-- Tile constant: player casting pose. -/
def TILE_PLAYER_MAGIC : Nat := 166

/-- Tile constant: player defending pose. -/
def TILE_PLAYER_DEFEND : Nat := 167

/-- Tile constant: bolt travelling north. -/
def TILE_BOLT_N : Nat := 168

/-- Tile constant: wet bolt travelling north. -/
def TILE_WBOLT_N : Nat := 172

/-- Tile constant: armed bolt trap frame. -/
def TILE_BOLT_TRAP_0 : Nat := 176

/-- Tile constant: firing bolt trap frame. -/
def TILE_BOLT_TRAP_1 : Nat := 177

/-- Tile constant: first monster-shrine frame. -/
def TILE_SHRINE_0 : Nat := 178

/-- Tile constant: fourth monster-shrine frame. -/
def TILE_SHRINE_3 : Nat := 181

/-- Tile constant: teleporter. -/
def TILE_TELEPORT : Nat := 182

/-- Tile constant: first player-teleport-spawn frame. -/
def TILE_PSPAWN_0 : Nat := 183

/-- Tile constant: second player-teleport-spawn frame. -/
def TILE_PSPAWN_1 : Nat := 184

/-- Tile constant: third player-teleport-spawn frame. -/
def TILE_PSPAWN_2 : Nat := 185

/-- Tile constant: fourth player-teleport-spawn frame. -/
def TILE_PSPAWN_3 : Nat := 186

/-- Tile constant: boulder. -/
def TILE_BOULDER : Nat := 187

/-- Tile constant: total solid wall sentinel (`TILE_WALL_X = 255`). -/
def TILE_WALL_X : Nat := 255

/-- Button bit-mask `BUTTON_A = 1`. -/
def BUTTON_A : Nat := 1

/-- Button bit-mask `BUTTON_X = 4`. -/
def BUTTON_X : Nat := 4

/-- Button bit-mask `BUTTON_UP = 16`. -/
def BUTTON_UP : Nat := 16

/-- Button bit-mask `BUTTON_DOWN = 32`. -/
def BUTTON_DOWN : Nat := 32

/-- Button bit-mask `BUTTON_LEFT = 64`. -/
def BUTTON_LEFT : Nat := 64

/-- Button bit-mask `BUTTON_RIGHT = 128`. -/
def BUTTON_RIGHT : Nat := 128

/-- Direction constant `DIR_NONE` from the clockwise `dir_t` enum. -/
def DIR_NONE : Nat := 0

/-- Direction constant `DIR_NORTH`. -/
def DIR_NORTH : Nat := 1

/-- Direction constant `DIR_EAST`. -/
def DIR_EAST : Nat := 2

/-- Direction constant `DIR_SOUTH`. -/
def DIR_SOUTH : Nat := 3

/-- Direction constant `DIR_WEST`. -/
def DIR_WEST : Nat := 4

/-- Simple 2D vector, the `vec_t` struct of xorx.c (`int x, y`). -/
@[ext] structure vec_t where
  x : Int
  y : Int
deriving DecidableEq, Repr

/-- Simple cell on the world, the `cell_t` struct: `tile` is the active
visible tile on this spot, `tick` is the 8-bit clock value at which this
cell is active again.  Both fields are `uint8_t` in C; they are modelled as
`Nat` with every store reduced `% 256` (tile stores in the source are all
8-bit literals). -/
structure cell_t where
  tile : Nat
  tick : Nat
deriving DecidableEq, Repr

/-- Abstract button state, standing in for `state.input` of xorx.c:
`down` is the bit-mask of buttons currently down, `prev` the mask from the
previous engine tick.  Both masks are built from 8-bit button constants, so
they are below 256 in every run of the program. -/
structure input_t where
  down : Nat
  prev : Nat
deriving DecidableEq, Repr

/-- The game state, the `struct game_t` member of the global state of
xorx.c.  The fixed `cell_t cells[MAP_ROWS][MAP_COLS]` array is modelled as
a total function on positions; all behaviour code accesses it only through
the bounds-checked `get`/`put` below, mirroring the source. -/
@[ext] structure game_t where
  paused : Bool
  dead : Bool
  rand : Nat
  tick : Nat
  player : vec_t
  view : vec_t
  life : Int
  ammo : Int
  flasks : Int
  keys : Int
  gold : Int
  cells : vec_t → cell_t

/-- Invalid position vector `invalid_position = {-1, -1}`. -/
def invalid_position : vec_t := ⟨-1, -1⟩

/-- Minimum of two integers (`mini`). -/
def mini (a b : Int) : Int := if a < b then a else b

/-- The fixed 256-entry random byte table used by `rnd`. -/
def rnd_data : List Nat := [87, 31, 118, 249, 64, 152, 247, 255, 254, 202, 250, 123, 39, 194, 240, 135, 117, 130, 66, 219, 48, 225, 37, 237, 105, 176, 78, 198, 99, 85, 3, 34, 61, 96, 50, 45, 43, 136, 203, 23, 119, 132, 175, 131, 178, 19, 36, 70, 241, 183, 140, 161, 199, 67, 155, 86, 220, 223, 65, 233, 71, 2, 192, 35, 244, 134, 166, 141, 236, 186, 46, 116, 184, 195, 205, 179, 181, 30, 109, 215, 245, 206, 228, 191, 187, 15, 115, 20, 93, 145, 113, 60, 151, 231, 137, 83, 209, 174, 59, 62, 89, 22, 51, 177, 114, 129, 7, 169, 171, 126, 18, 79, 160, 16, 180, 163, 232, 207, 144, 1, 246, 230, 94, 122, 167, 172, 104, 0, 128, 72, 90, 12, 76, 196, 41, 190, 193, 52, 149, 68, 189, 73, 100, 95, 218, 121, 156, 33, 108, 8, 157, 63, 77, 150, 139, 138, 162, 107, 82, 88, 200, 234, 74, 28, 110, 54, 229, 4, 84, 133, 239, 103, 125, 211, 153, 159, 197, 29, 102, 27, 142, 24, 158, 253, 222, 217, 204, 148, 147, 170, 213, 111, 226, 208, 56, 168, 143, 6, 165, 201, 47, 112, 92, 251, 13, 212, 55, 242, 188, 91, 80, 146, 210, 243, 235, 81, 124, 252, 14, 238, 221, 127, 5, 53, 106, 214, 227, 42, 101, 57, 38, 21, 9, 97, 40, 44, 248, 164, 98, 75, 32, 154, 11, 10, 182, 224, 173, 17, 185, 25, 58, 26, 216, 120, 69, 49]

/-- Value of the random table at an 8-bit cursor. -/
def rnd_at (i : Nat) : Nat := rnd_data.getD (i % 256) 0

/-- Random number for gameplay (`rnd`): reads the table at the current
8-bit cursor `state.game.rand` and post-increments the cursor, which wraps
mod 256 as a `uint8_t`. -/
def rnd (s : game_t) : Nat × game_t :=
  (rnd_at s.rand, { s with rand := (s.rand + 1) % 256 })

/-- Shortcut to create a 2D vector (`vec2`). -/
def vec2 (x y : Int) : vec_t := ⟨x, y⟩

/-- Check if two vectors are equal (`veq`). -/
def veq (a b : vec_t) : Bool := decide (a = b)

/-- Add two vectors (`vadd`). -/
def vadd (a b : vec_t) : vec_t := ⟨a.x + b.x, a.y + b.y⟩

/-- Subtract two vectors (`vsub`). -/
def vsub (a b : vec_t) : vec_t := ⟨a.x - b.x, a.y - b.y⟩

/-- Return the unit vector for the given direction (`vdir`); directions
outside `DIR_NORTH .. DIR_WEST` give the zero vector. -/
def vdir (dir : Nat) : vec_t :=
  if dir = DIR_NORTH then ⟨0, -1⟩
  else if dir = DIR_EAST then ⟨1, 0⟩
  else if dir = DIR_SOUTH then ⟨0, 1⟩
  else if dir = DIR_WEST then ⟨-1, 0⟩
  else ⟨0, 0⟩

/-- Move a vector one step in a direction (`vmove`). -/
def vmove (v : vec_t) (d : Nat) : vec_t := vadd v (vdir d)

/-- Base vector for the given vector, normalized to the viewport grid
(`vbase`): C integer division truncates toward zero, hence `Int.tdiv`. -/
def vbase (v : vec_t) : vec_t :=
  ⟨(Int.tdiv v.x VIEW_COLS) * VIEW_COLS, (Int.tdiv v.y VIEW_ROWS) * VIEW_ROWS⟩

/-- Check if a button is down (`btn`). -/
def btn (inp : input_t) (mask : Nat) : Bool := Nat.land inp.down mask != 0

/-- Check if a button was just pressed (`btnp`): C computes
`(down & ~prev) & mask` on ints whose used bits all lie below bit 8, so the
complement is taken within the low byte. -/
def btnp (inp : input_t) (mask : Nat) : Bool :=
  Nat.land (Nat.land inp.down (Nat.xor inp.prev 255)) mask != 0

/-- Check if a vector is inside the world (`inside`). -/
def inside (v : vec_t) : Bool :=
  decide (0 ≤ v.x ∧ v.x < MAP_COLS ∧ 0 ≤ v.y ∧ v.y < MAP_ROWS)

/-- Check if a vector is currently visible (`visible`): its base rectangle
is the current view. -/
def visible (s : game_t) (v : vec_t) : Bool := veq (vbase v) s.view

/-- Get a cell from the world (`get`): out-of-bounds reads synthesize a
`TILE_WALL_0` cell (whose `tick` field is zero-initialized in C). -/
def get (s : game_t) (v : vec_t) : cell_t :=
  if inside v then s.cells v else ⟨TILE_WALL_0, 0⟩

/-- Put a cell into the world (`put`): a no-op when out of bounds. -/
def put (s : game_t) (v : vec_t) (c : cell_t) : game_t :=
  if inside v then { s with cells := fun p => if p = v then c else s.cells p } else s

/-- Clear a cell (`clear`): the default `cell_t` is all zero. -/
def clear (s : game_t) (v : vec_t) : game_t := put s v ⟨0, 0⟩

/-- Shape a cell with a tile and the given ticks until it activates again
(`shape`); the `tick` field is a `uint8_t`, so the store wraps mod 256. -/
def shape (s : game_t) (v : vec_t) (tile ticks : Nat) : game_t :=
  put s v ⟨tile, (s.tick + ticks) % 256⟩

/-- Hibernate a cell (`hibernate`): rewrite its wake tick to
`(tick + 256 - currentTick) % 256`, the remaining delay relative to the
current clock. -/
def hibernate (s : game_t) (v : vec_t) : game_t :=
  let c := get s v
  put s v ⟨c.tile, (c.tick + 256 - s.tick) % 256⟩

/-- Explode a cell (`explode`); the sound trigger does not touch
`state.game` and is dropped. -/
def explode (s : game_t) (v : vec_t) : game_t := shape s v TILE_EXPLOSION_0 2

/-- Random direction (`random_dir`). -/
def random_dir (s : game_t) : Nat × game_t :=
  let (r, s) := rnd s
  (DIR_NORTH + r % 4, s)

/-- Direction based on player input (`input_dir`). -/
def input_dir (inp : input_t) : Nat :=
  if btn inp BUTTON_UP then DIR_NORTH
  else if btn inp BUTTON_DOWN then DIR_SOUTH
  else if btn inp BUTTON_LEFT then DIR_WEST
  else if btn inp BUTTON_RIGHT then DIR_EAST
  else DIR_NONE

/-- Direction to walk from `src` toward `dst` (`chase_dir`): when both
axis deltas are nonzero one axis is randomly discarded. -/
def chase_dir (s : game_t) (src dst : vec_t) : Nat × game_t :=
  let d := vsub dst src
  let (dx, dy, s) :=
    if d.x ≠ 0 ∧ d.y ≠ 0 then
      let (r, s) := rnd s
      if r % 2 ≠ 0 then ((0 : Int), d.y, s) else (d.x, (0 : Int), s)
    else (d.x, d.y, s)
  (if dx < 0 then DIR_WEST
   else if dx > 0 then DIR_EAST
   else if dy < 0 then DIR_NORTH
   else if dy > 0 then DIR_SOUTH
   else DIR_NONE, s)

/-- Wall test (`iswall`): true on the four wall variants and the solid
wall sentinel. -/
def iswall (s : game_t) (v : vec_t) : Bool :=
  let t := (get s v).tile
  decide (t = TILE_WALL_0 ∨ t = TILE_WALL_1 ∨ t = TILE_WALL_2 ∨ t = TILE_WALL_3 ∨ t = TILE_WALL_X)

/-- Offsets scanned by `enclosed`, in the order of its two nested loops
(`y` outer from -1 to 1, `x` inner from -1 to 1); note that the centre
offset `(0, 0)` is among them. -/
def around : List vec_t :=
  [⟨-1, -1⟩, ⟨0, -1⟩, ⟨1, -1⟩, ⟨-1, 0⟩, ⟨0, 0⟩, ⟨1, 0⟩, ⟨-1, 1⟩, ⟨0, 1⟩, ⟨1, 1⟩]

/-- Enclosure test (`enclosed`): the source loops `x` and `y` over
`-1 ..= 1` including `(0, 0)`, so the cell itself is tested as well. -/
def enclosed (s : game_t) (src : vec_t) : Bool :=
  around.all (fun o => iswall s (vadd src o))

/-- Hurt the player (`hurt`): damage below the current life reduces life
and re-shapes the player into a brief defend pose; otherwise life drops to
0, the dead flag is set and the player cell explodes. -/
def hurt (s : game_t) (damage : Int) : game_t :=
  if damage < s.life then
    shape { s with life := s.life - damage } s.player TILE_PLAYER_DEFEND 5
  else
    explode { s with life := 0, dead := true } s.player

/-- Scan loop of `teleport`: walk from `dst` in direction `dir` while
inside the world, looking for the next teleporter cell.  The C loop needs
no fuel (it leaves the map after at most `max(MAP_COLS, MAP_ROWS) + 1`
steps); here structural recursion on a fuel counter larger than any such
path length gives the same function. -/
def teleport_scan (dir : Nat) : Nat → game_t → vec_t → Bool × game_t
  | 0, s, _ => (false, s)
  | fuel + 1, s, dst =>
    if inside dst then
      if (get s dst).tile = TILE_TELEPORT then
        let s := clear s s.player
        let p := vmove dst dir
        let s := { s with player := p, view := vbase p }
        (true, shape s p TILE_PSPAWN_0 2)
      else teleport_scan dir fuel s (vmove dst dir)
    else (false, s)

/-- Teleport the player (`teleport`): scan forward from one past `src`
along `dir`; on finding a teleporter, relocate the player one step past
it, rebase the view and start the post-teleport spawn animation. -/
def teleport (s : game_t) (src : vec_t) (dir : Nat) : Bool × game_t :=
  teleport_scan dir 1024 s (vmove src dir)

/-- Push a boulder (`push`): into an empty cell the boulder moves; into a
monster the monster explodes and the push fails; into water the boulder
sinks (source cleared, destination explodes) and the push fails. -/
def push (s : game_t) (src : vec_t) (dir : Nat) : Bool × game_t :=
  let dst := vmove src dir
  let t := (get s dst).tile
  if t = TILE_EMPTY then
    (true, shape (clear s src) dst TILE_BOULDER 0)
  else if t = TILE_MONSTER_0 ∨ t = TILE_MONSTER_1 ∨ t = TILE_MONSTER_2 ∨ t = TILE_MONSTER_3 then
    (false, explode s dst)
  else if t = TILE_WATER_0 ∨ t = TILE_WATER_1 then
    (false, explode (clear s src) dst)
  else
    (false, s)

/-- Update an arrow (`update_arrow`): the source cell reverts to animated
water (wet variant) or clears, then the arrow advances one cell; a
destination outside the active viewport drops the arrow. -/
def update_arrow (s : game_t) (src : vec_t) (dir : Nat) (water : Bool) : game_t :=
  let s :=
    if water then
      let (r1, s) := rnd s
      let (r2, s) := rnd s
      shape s src (TILE_WATER_0 + r1 % 2) (16 + r2 % 8)
    else clear s src
  let dst := vmove src dir
  if !visible s dst then s
  else
    let c := get s dst
    if c.tile = TILE_EMPTY ∨ c.tile = TILE_EXPLOSION_0 ∨ c.tile = TILE_EXPLOSION_1 ∨
        c.tile = TILE_EXPLOSION_2 ∨ c.tile = TILE_EXPLOSION_3 then
      shape s dst (TILE_ARROW_N + dir - 1) 2
    else if c.tile = TILE_WATER_0 ∨ c.tile = TILE_WATER_1 then
      shape s dst (TILE_WARROW_N + dir - 1) 2
    else if c.tile = TILE_MONSTER_0 then
      explode s dst
    else if c.tile = TILE_MONSTER_1 ∨ c.tile = TILE_MONSTER_2 ∨ c.tile = TILE_MONSTER_3 then
      put s dst ⟨c.tile - 1, c.tick⟩
    else if c.tile = TILE_GRASS_0 ∨ c.tile = TILE_GRASS_1 ∨ c.tile = TILE_RUIN_0 ∨
        c.tile = TILE_RUIN_1 then
      explode s dst
    else s

/-- Update a bolt (`update_bolt`): like an arrow, but a bolt reaching the
player applies fixed damage 5 and does not detonate decor. -/
def update_bolt (s : game_t) (src : vec_t) (dir : Nat) (water : Bool) : game_t :=
  let s :=
    if water then
      let (r1, s) := rnd s
      let (r2, s) := rnd s
      shape s src (TILE_WATER_0 + r1 % 2) (16 + r2 % 8)
    else clear s src
  let dst := vmove src dir
  if !visible s dst then s
  else
    let c := get s dst
    if c.tile = TILE_EMPTY ∨ c.tile = TILE_EXPLOSION_0 ∨ c.tile = TILE_EXPLOSION_1 ∨
        c.tile = TILE_EXPLOSION_2 ∨ c.tile = TILE_EXPLOSION_3 then
      shape s dst (TILE_BOLT_N + dir - 1) 2
    else if c.tile = TILE_WATER_0 ∨ c.tile = TILE_WATER_1 then
      shape s dst (TILE_WBOLT_N + dir - 1) 2
    else if c.tile = TILE_MONSTER_0 then
      explode s dst
    else if c.tile = TILE_MONSTER_1 ∨ c.tile = TILE_MONSTER_2 ∨ c.tile = TILE_MONSTER_3 then
      put s dst ⟨c.tile - 1, c.tick⟩
    else if c.tile = TILE_PLAYER_STAND ∨ c.tile = TILE_PLAYER_SHOOT ∨
        c.tile = TILE_PLAYER_MAGIC ∨ c.tile = TILE_PLAYER_DEFEND then
      hurt s 5
    else s

/-- Update the bolt trap (`update_bolt_trap`): the armed frame advances to
the firing frame; the firing frame emits one bolt in each cardinal
direction (north, east, south, west in order) and re-arms. -/
def update_bolt_trap (s : game_t) (src : vec_t) (cell : cell_t) : game_t :=
  if cell.tile = TILE_BOLT_TRAP_0 then
    shape s src TILE_BOLT_TRAP_1 4
  else
    let s := update_bolt s src DIR_NORTH false
    let s := update_bolt s src DIR_EAST false
    let s := update_bolt s src DIR_SOUTH false
    let s := update_bolt s src DIR_WEST false
    shape s src TILE_BOLT_TRAP_0 (30 - 4)

/-- Update a monster shrine (`update_shrine`): the final phase restarts
the cycle and tries to start a monster spawn in a random adjacent empty
cell; other phases just advance. -/
def update_shrine (s : game_t) (src : vec_t) (cell : cell_t) : game_t :=
  if cell.tile = TILE_SHRINE_3 then
    let s := shape s src TILE_SHRINE_0 60
    let (d, s) := random_dir s
    let dst := vmove src d
    if (get s dst).tile = TILE_EMPTY then shape s dst TILE_SPAWN_0 2 else s
  else
    shape s src (cell.tile + 1) 60

/-- Update a monster (`update_monster`): chase the player one step; an
empty destination is moved into, the player is attacked (damage tier + 1)
with the monster destroying itself, anything else leaves the monster in
place; every branch re-arms on a fixed 16-tick interval. -/
def update_monster (s : game_t) (src : vec_t) (cell : cell_t) : game_t :=
  let (d, s) := chase_dir s src s.player
  let dst := vmove src d
  let t := (get s dst).tile
  if t = TILE_EMPTY then
    shape (clear s src) dst cell.tile 16
  else if t = TILE_PLAYER_STAND ∨ t = TILE_PLAYER_SHOOT ∨ t = TILE_PLAYER_MAGIC ∨
      t = TILE_PLAYER_DEFEND then
    let s := hurt s (cell.tile - TILE_MONSTER_0 + 1)
    let s := explode s src
    shape s dst TILE_PLAYER_DEFEND 5
  else
    shape s src cell.tile 16

/-- Update the player (`update_player`): shooting spawns an arrow when a
direction is held; walking resolves the destination cell by tile kind.
Note that the successful boulder-push branch of the source does not update
`state.game.player`. -/
def update_player (inp : input_t) (s : game_t) (src : vec_t) : game_t :=
  let dir := input_dir inp
  let dst := vmove src dir
  if btn inp BUTTON_A then
    if dir ≠ DIR_NONE then
      shape (update_arrow s src dir false) src TILE_PLAYER_SHOOT 20
    else
      shape s src TILE_PLAYER_SHOOT 1
  else if dir = DIR_NONE then
    { shape s src TILE_PLAYER_STAND 1 with player := src }
  else
    let c := get s dst
    if c.tile = TILE_EMPTY then
      { shape (clear s src) dst TILE_PLAYER_STAND 5 with player := dst }
    else if c.tile = TILE_GRASS_0 ∨ c.tile = TILE_GRASS_1 then
      { shape (explode s dst) src TILE_PLAYER_STAND 1 with player := src }
    else if c.tile = TILE_MONSTER_0 ∨ c.tile = TILE_MONSTER_1 ∨ c.tile = TILE_MONSTER_2 ∨
        c.tile = TILE_MONSTER_3 then
      let s := hurt s (c.tile - TILE_MONSTER_0 + 1)
      { shape (explode s dst) src TILE_PLAYER_STAND 1 with player := src }
    else if c.tile = TILE_TELEPORT then
      match teleport s dst dir with
      | (true, s) => s
      | (false, s) => { shape s src TILE_PLAYER_STAND 1 with player := src }
    else if c.tile = TILE_BOULDER then
      match push s dst dir with
      | (true, s) => shape (clear s src) dst TILE_PLAYER_STAND 10
      | (false, s) => { shape s src TILE_PLAYER_STAND 1 with player := src }
    else if c.tile = TILE_LIFE then
      let s := { s with life := mini 999 (s.life + 5) }
      { shape (clear s src) dst TILE_PLAYER_STAND 5 with player := dst }
    else if c.tile = TILE_AMMO then
      let s := { s with ammo := mini 999 (s.ammo + 5) }
      { shape (clear s src) dst TILE_PLAYER_STAND 5 with player := dst }
    else if c.tile = TILE_FLASK then
      let s := { s with flasks := mini 999 (s.flasks + 1) }
      { shape (clear s src) dst TILE_PLAYER_STAND 5 with player := dst }
    else
      { shape s src TILE_PLAYER_STAND 1 with player := src }

/-- Behaviour dispatch switch of `update_cell`: the transition is
selected by the cell's tile kind, tiles without a case are left alone. -/
def update_tile (inp : input_t) (s : game_t) (v : vec_t) (c : cell_t) : game_t :=
  if c.tile = TILE_PLAYER_STAND ∨ c.tile = TILE_PLAYER_SHOOT ∨
      c.tile = TILE_PLAYER_MAGIC ∨ c.tile = TILE_PLAYER_DEFEND then
    update_player inp s v
  else if c.tile = TILE_MONSTER_0 ∨ c.tile = TILE_MONSTER_1 ∨ c.tile = TILE_MONSTER_2 ∨
      c.tile = TILE_MONSTER_3 then
    update_monster s v c
  else if c.tile = TILE_ARROW_N then update_arrow s v DIR_NORTH false
  else if c.tile = TILE_ARROW_N + 1 then update_arrow s v DIR_EAST false
  else if c.tile = TILE_ARROW_N + 2 then update_arrow s v DIR_SOUTH false
  else if c.tile = TILE_ARROW_N + 3 then update_arrow s v DIR_WEST false
  else if c.tile = TILE_WARROW_N then update_arrow s v DIR_NORTH true
  else if c.tile = TILE_WARROW_N + 1 then update_arrow s v DIR_EAST true
  else if c.tile = TILE_WARROW_N + 2 then update_arrow s v DIR_SOUTH true
  else if c.tile = TILE_WARROW_N + 3 then update_arrow s v DIR_WEST true
  else if c.tile = TILE_BOLT_N then update_bolt s v DIR_NORTH false
  else if c.tile = TILE_BOLT_N + 1 then update_bolt s v DIR_EAST false
  else if c.tile = TILE_BOLT_N + 2 then update_bolt s v DIR_SOUTH false
  else if c.tile = TILE_BOLT_N + 3 then update_bolt s v DIR_WEST false
  else if c.tile = TILE_WBOLT_N then update_bolt s v DIR_NORTH true
  else if c.tile = TILE_WBOLT_N + 1 then update_bolt s v DIR_EAST true
  else if c.tile = TILE_WBOLT_N + 2 then update_bolt s v DIR_SOUTH true
  else if c.tile = TILE_WBOLT_N + 3 then update_bolt s v DIR_WEST true
  else if c.tile = TILE_BOLT_TRAP_0 ∨ c.tile = TILE_BOLT_TRAP_1 then
    update_bolt_trap s v c
  else if c.tile = TILE_WATER_0 then
    let (r, s) := rnd s
    shape s v TILE_WATER_1 (16 + r % 8)
  else if c.tile = TILE_WATER_1 then
    let (r, s) := rnd s
    shape s v TILE_WATER_0 (16 + r % 8)
  else if c.tile = TILE_EXPLOSION_0 then shape s v TILE_EXPLOSION_1 2
  else if c.tile = TILE_EXPLOSION_1 then shape s v TILE_EXPLOSION_2 2
  else if c.tile = TILE_EXPLOSION_2 then shape s v TILE_EXPLOSION_3 2
  else if c.tile = TILE_EXPLOSION_3 then clear s v
  else if c.tile = TILE_SPAWN_0 then shape s v TILE_SPAWN_1 2
  else if c.tile = TILE_SPAWN_1 then shape s v TILE_SPAWN_2 2
  else if c.tile = TILE_SPAWN_2 then shape s v TILE_SPAWN_3 2
  else if c.tile = TILE_SPAWN_3 then
    let (r, s) := rnd s
    shape s v (TILE_MONSTER_0 + r % 4) 10
  else if c.tile = TILE_PSPAWN_0 then shape s v TILE_PSPAWN_1 2
  else if c.tile = TILE_PSPAWN_1 then shape s v TILE_PSPAWN_2 2
  else if c.tile = TILE_PSPAWN_2 then shape s v TILE_PSPAWN_3 2
  else if c.tile = TILE_PSPAWN_3 then shape s v TILE_PLAYER_STAND 1
  else if c.tile = TILE_SHRINE_0 ∨ c.tile = TILE_SHRINE_0 + 1 ∨ c.tile = TILE_SHRINE_0 + 2 ∨
      c.tile = TILE_SHRINE_3 then
    update_shrine s v c
  else s

/-- Handle a single cell (`update_cell`): a cell is dispatched only when
its wake tick equals the current game tick (`cell.tick != state.game.tick`
returns immediately); otherwise its tile-kind behaviour runs. -/
def update_cell (inp : input_t) (s : game_t) (v : vec_t) : game_t :=
  let c := get s v
  if c.tick ≠ s.tick then s else update_tile inp s v c

/-- Positions of the viewport rectangle anchored at `base`, in the
row-major order of the sweep loops of `update_game` (`y` outer over
`VIEW_ROWS`, `x` inner over `VIEW_COLS`). -/
def view_positions (base : vec_t) : List vec_t :=
  (List.range 16).flatMap (fun (y : Nat) => (List.range 32).map (fun (x : Nat) => vadd base (vec2 x y)))

/-- The per-cell sweep of `update_game` over the viewport at `base`. -/
def view_sweep (inp : input_t) (base : vec_t) (s : game_t) : game_t :=
  (view_positions base).foldl (fun σ v => update_cell inp σ v) s

/-- The hibernation loop of `update_game` over the viewport at `base`. -/
def hib_sweep (base : vec_t) (s : game_t) : game_t :=
  (view_positions base).foldl (fun σ v => hibernate σ v) s

/-- Reset of the game tick counter performed by `update_game` after a
viewport change (`state.game.tick = 0`). -/
def tick_reset (s : game_t) : game_t := { s with tick := 0 }

/-- Advance of the 8-bit game tick counter performed by `update_game`
(`state.game.tick++` on a `uint8_t` wraps mod 256). -/
def tick_next (s : game_t) : game_t := { s with tick := (s.tick + 1) % 256 }

/-- Smooth panning of the view origin toward the base rectangle, the four
sequential `if` statements of `update_game` (2 tiles per step horizontally,
1 vertically; each later test sees the already-updated coordinate). -/
def pan_view (view base : vec_t) : vec_t :=
  let vx := if view.x < base.x then view.x + 2 else view.x
  let vx := if vx > base.x then vx - 2 else vx
  let vy := if view.y < base.y then view.y + 1 else view.y
  let vy := if vy > base.y then vy - 1 else vy
  ⟨vx, vy⟩

/-- Update the whole game for one simulation step (`update_game`).  The
`restart` argument abstracts the state produced by `start_game()` in the
dead-restart branch (its value depends on the external level bitmap). -/
def update_game (restart : game_t) (inp : input_t) (s : game_t) : game_t :=
  let s := if s.dead && btnp inp BUTTON_A then restart else s
  let s := if !s.dead && btnp inp BUTTON_X then { s with paused := !s.paused } else s
  if s.paused then s
  else
    let base := vbase s.player
    if !veq base s.view then
      { s with view := pan_view s.view base }
    else
      let s := view_sweep inp base s
      if !veq base (vbase s.player) then
        tick_reset (hibernate (hib_sweep base s) s.player)
      else
        tick_next s

/-- Dispatch gate of `update_cell`: a cell is dispatched exactly when its
wake tick equals the current game tick (`cell.tick != state.game.tick`
makes `update_cell` return without doing anything). -/
def wakes (s : game_t) (v : vec_t) : Bool := decide ((get s v).tick = s.tick)

/-- Abstract level bitmap, standing in for the `SDL_Surface` loaded from
"world.bmp": a pixel grid of the given dimensions whose entries are 24-bit
`(r << 16) | (g << 8) | b` colour values. -/
structure surface_t where
  w : Nat
  h : Nat
  pixel : Nat → Nat → Nat

/-- The freshly reset game state built at the top of `start_game`: the C
designated initializer sets `player`, `life` and `ammo` and zero-fills
every other member, including the whole cell array. -/
def reset_game : game_t :=
  { paused := false, dead := false, rand := 0, tick := 0,
    player := invalid_position, view := ⟨0, 0⟩,
    life := 10, ammo := 5, flasks := 0, keys := 0, gold := 0,
    cells := fun _ => ⟨0, 0⟩ }

/-- Positions of the level-load loops of `start_game`, row-major (`y`
outer over `MAP_ROWS`, `x` inner over `MAP_COLS`). -/
def map_positions : List vec_t :=
  (List.range 256).flatMap (fun (y : Nat) => (List.range 512).map (fun (x : Nat) => vec2 x y))

/-- Colour switch of the level loader: look the pixel colour up in the
fixed table and shape (or clear) the cell; the player's spawn colour
additionally records the player position. -/
def load_color (s : game_t) (v : vec_t) (color : Nat) : game_t :=
  if color = 0x4e4a4e then let (r, s) := rnd s; shape s v (TILE_WALL_0 + r % 4) 0
  else if color = 0x8595a1 then shape s v TILE_BOULDER 0
  else if color = 0x70402a then let (r, s) := rnd s; shape s v (TILE_RUIN_0 + r % 2) 0
  else if color = 0x004000 then let (r, s) := rnd s; shape s v (TILE_TREE_0 + r % 2) 0
  else if color = 0x4a2a1b then let (r, s) := rnd s; shape s v (TILE_TREE_2 + r % 2) 0
  else if color = 0x008000 then let (r, s) := rnd s; shape s v (TILE_GRASS_0 + r % 2) 0
  else if color = 0x000096 then let (r, s) := rnd s; shape s v (TILE_WATER_0 + r % 2) 16
  else if color = 0xffffff then { shape s v TILE_PLAYER_STAND 1 with player := v }
  else if color = 0x400000 then shape s v TILE_MONSTER_0 1
  else if color = 0x800000 then shape s v TILE_MONSTER_1 1
  else if color = 0xc00000 then shape s v TILE_MONSTER_2 1
  else if color = 0xff0000 then shape s v TILE_MONSTER_3 1
  else if color = 0xff8000 then let (r, s) := rnd s; shape s v TILE_BOLT_TRAP_0 (r % 16)
  else if color = 0xff6400 then let (r, s) := rnd s; shape s v TILE_SHRINE_0 (30 + r % 16)
  else if color = 0x6dc2ca then shape s v TILE_TELEPORT 0
  else clear s v

/-- One iteration of the colour-to-tile mapping loop of `start_game`:
read the pixel at the loop coordinates and apply the colour switch. -/
def load_cell (sf : surface_t) (s : game_t) (v : vec_t) : game_t :=
  load_color s v (sf.pixel v.x.toNat v.y.toNat)

/-- First pass of `start_game`: map every pixel of the level bitmap. -/
def load_pass (sf : surface_t) (s : game_t) : game_t :=
  map_positions.foldl (fun σ v => load_cell sf σ v) s

/-- Body of the solid-wall pass of `start_game`: a fully enclosed cell is
promoted to the absolute wall sentinel. -/
def promote_cell (s : game_t) (v : vec_t) : game_t :=
  if enclosed s v then shape s v TILE_WALL_X 0 else s

/-- Second pass of `start_game` over the whole map, promoting enclosed
cells to `TILE_WALL_X`. -/
def promote_pass (s : game_t) : game_t :=
  map_positions.foldl (fun σ v => promote_cell σ v) s

/-- Start a completely new game (`start_game`).  The level bitmap read
from disk is abstracted as an `Option surface_t`: `none` models
`SDL_LoadBMP` failing, in which case the function returns with the freshly
reset state; a loaded bitmap of the wrong dimensions hits the fatal
`fail(...)` path, modelled as `Except.error`. -/
def start_game (surf : Option surface_t) : Except Unit game_t :=
  match surf with
  | none => Except.ok reset_game
  | some sf =>
    if sf.w = 512 ∧ sf.h = 256 then
      let s := load_pass sf reset_game
      let s := { s with view := vbase s.player }
      Except.ok (promote_pass s)
    else
      Except.error ()

/-- Reachable game states: every state produced by `start_game` for some
level input is reachable, and reachability is closed under simulation
steps, where the restart state consumed by the dead-restart branch of
`update_game` is itself a `start_game` product. -/
inductive Reachable : game_t → Prop
  | start (surf : Option surface_t) (s : game_t) :
      start_game surf = Except.ok s → Reachable s
  | step (s restart : game_t) (surf : Option surface_t) (inp : input_t) :
      Reachable s → start_game surf = Except.ok restart →
      Reachable (update_game restart inp s)

/-- Modelled from the spec: the end-of-step hibernation as the
specification words it — hibernate every cell of the just-left viewport
rectangle plus the player's *vacated* cell, then reset the tick counter.
This is the comparison definition for claim C5; the source instead
hibernates `state.game.player`, which at that point already holds the
player's new position. -/
def spec_hibernate_vacated (base vacated : vec_t) (s : game_t) : game_t :=
  tick_reset (hibernate (hib_sweep base s) vacated)

/-- Empty input: no button down now or on the previous tick. -/
def inp0 : input_t := ⟨0, 0⟩

/-- Input with only the right directional button held. -/
def inpR : input_t := ⟨128, 0⟩

/-- Baseline concrete game state used by witnesses: alive, unpaused,
all-empty grid, clock at 0. -/
def g0 : game_t :=
  { paused := false, dead := false, rand := 0, tick := 0,
    player := ⟨0, 0⟩, view := ⟨0, 0⟩,
    life := 10, ammo := 5, flasks := 0, keys := 0, gold := 0,
    cells := fun _ => ⟨0, 0⟩ }

/-- Concrete state for the C1 witness: clock at 10, one water cell at
(3,4) scheduled for tick 4. -/
def g1 : game_t :=
  { g0 with
    tick := 10,
    cells := fun p => if p = ⟨3, 4⟩ then ⟨TILE_WATER_0, 4⟩ else ⟨0, 0⟩ }

/-- Concrete state refuting claim C4: the game is dead but not paused,
and an explosion cell at (5,5) is due this tick. -/
def g4 : game_t :=
  { g0 with
    dead := true, player := ⟨5, 5⟩,
    cells := fun p => if p = ⟨5, 5⟩ then ⟨TILE_EXPLOSION_0, 0⟩ else ⟨0, 0⟩ }

/-- Concrete state for claim C5: the player stands on the east edge of
the home viewport page, due this tick (clock 3), and will step east onto a
new page. -/
def g5 : game_t :=
  { g0 with
    tick := 3, player := ⟨31, 5⟩,
    cells := fun p => if p = ⟨31, 5⟩ then ⟨TILE_PLAYER_STAND, 3⟩ else ⟨0, 0⟩ }

/-- Concrete state for the pan conjunct of the C5 counterexample: the
player's base rectangle is one page east of the view, so the step pans. -/
def g5b : game_t := { g0 with tick := 7, player := ⟨40, 5⟩ }

/-- Concrete state for claim C10: a tier-2 monster at (31,5) on the east
edge of the view, the player east of it at (40,5) on the same row (so the
chase uses no randomness), both on clock 1. -/
def gM : game_t :=
  { g0 with
    tick := 1, player := ⟨40, 5⟩,
    cells := fun p =>
      if p = ⟨31, 5⟩ then ⟨TILE_MONSTER_2, 1⟩
      else if p = ⟨40, 5⟩ then ⟨TILE_PLAYER_STAND, 9⟩ else ⟨0, 0⟩ }

/-- Concrete state for the persistence conjunct of claim C10: a tier-2
monster rests at (32,5), outside the active viewport anchored at (0,0);
the player is parked inside the view and not due this tick. -/
def gM2 : game_t :=
  { g0 with
    tick := 1, player := ⟨5, 5⟩,
    cells := fun p =>
      if p = ⟨32, 5⟩ then ⟨TILE_MONSTER_2, 17⟩
      else if p = ⟨5, 5⟩ then ⟨TILE_PLAYER_STAND, 9⟩ else ⟨0, 0⟩ }

/-- The eight positions of the 3 by 3 block around (5,5) used by the C8
counterexample, with the centre left out. -/
def ring8 : List vec_t :=
  [⟨4, 4⟩, ⟨5, 4⟩, ⟨6, 4⟩, ⟨4, 5⟩, ⟨6, 5⟩, ⟨4, 6⟩, ⟨5, 6⟩, ⟨6, 6⟩]

/-- Concrete state refuting claim C8: all eight neighbours of (5,5) are
walls but (5,5) itself is empty. -/
def g8 : game_t :=
  { g0 with
    cells := fun p => if p ∈ ring8 then ⟨TILE_WALL_0, 0⟩ else ⟨0, 0⟩ }

/-- Concrete state for the C8 witness: the full 3 by 3 block at (5,5) is
walls, including the centre. -/
def g8w : game_t :=
  { g0 with
    cells := fun p =>
      if p ∈ ring8 ∨ p = ⟨5, 5⟩ then ⟨TILE_WALL_0, 0⟩ else ⟨0, 0⟩ }

/-- Concrete level bitmap for the C6 counterexample: correct 512 by 256
dimensions, a single white player-spawn pixel at (31,5) on the east edge
of the first viewport page, every other pixel an unrecognized colour
(plain floor). -/
def surfA : surface_t :=
  ⟨512, 256, fun x y => if x = 31 ∧ y = 5 then 0xffffff else 0⟩

/-- The game state `start_game` produces from `surfA`: the player stands
at (31,5) with wake tick 1, everything else is empty floor. -/
def sA : game_t :=
  { paused := false, dead := false, rand := 0, tick := 0,
    player := ⟨31, 5⟩, view := ⟨0, 0⟩,
    life := 10, ammo := 5, flasks := 0, keys := 0, gold := 0,
    cells := fun p => if p = ⟨31, 5⟩ then ⟨TILE_PLAYER_STAND, 1⟩ else ⟨0, 0⟩ }

/-- Three simulation steps from `sA`: one idle step (the player cell wakes
at tick 1), one step east that crosses onto the next viewport page, and
one panning step that leaves the view origin at x = 2. -/
def sB3 : game_t := update_game sA inp0 (update_game sA inpR (update_game sA inp0 sA))

/-- A cell is inert for a sweep step: it is either not due this tick
(the `update_cell` gate fails) or empty (the dispatch switch has no case
for `TILE_EMPTY`). -/
def inert (s : game_t) (v : vec_t) : Bool :=
  !wakes s v || decide ((get s v).tile = TILE_EMPTY)

/-- The sweep offsets relative to the base: the same pairs the two nested
loops of `update_game` produce. -/
def view_offsets : List vec_t :=
  (List.range 16).flatMap (fun (y : Nat) => (List.range 32).map (fun (x : Nat) => vec2 x y))

/-- Helper: `put` never changes the paused flag. -/
@[simp] theorem put_paused (s : game_t) (v : vec_t) (c : cell_t) :
    (put s v c).paused = s.paused := by
  unfold put; split <;> rfl

/-- Helper: `put` never changes the dead flag. -/
@[simp] theorem put_dead (s : game_t) (v : vec_t) (c : cell_t) :
    (put s v c).dead = s.dead := by
  unfold put; split <;> rfl

/-- Helper: `put` never changes the random cursor. -/
@[simp] theorem put_rand (s : game_t) (v : vec_t) (c : cell_t) :
    (put s v c).rand = s.rand := by
  unfold put; split <;> rfl

/-- Helper: `put` never changes the game tick. -/
@[simp] theorem put_tick (s : game_t) (v : vec_t) (c : cell_t) :
    (put s v c).tick = s.tick := by
  unfold put; split <;> rfl

/-- Helper: `put` never changes the player position. -/
@[simp] theorem put_player (s : game_t) (v : vec_t) (c : cell_t) :
    (put s v c).player = s.player := by
  unfold put; split <;> rfl

/-- Helper: `put` never changes the view origin. -/
@[simp] theorem put_view (s : game_t) (v : vec_t) (c : cell_t) :
    (put s v c).view = s.view := by
  unfold put; split <;> rfl

/-- Helper: `put` never changes the life total. -/
@[simp] theorem put_life (s : game_t) (v : vec_t) (c : cell_t) :
    (put s v c).life = s.life := by
  unfold put; split <;> rfl

/-- Helper: `put` never changes the ammo count. -/
@[simp] theorem put_ammo (s : game_t) (v : vec_t) (c : cell_t) :
    (put s v c).ammo = s.ammo := by
  unfold put; split <;> rfl

/-- Helper: `get` on an in-bounds position reads the cell array. -/
theorem get_of_inside (s : game_t) (v : vec_t) (h : inside v = true) :
    get s v = s.cells v := by
  simp [get, h]

/-- Helper: `put` on an in-bounds position stores the cell there. -/
theorem put_cells_self (s : game_t) (v : vec_t) (c : cell_t) (h : inside v = true) :
    (put s v c).cells v = c := by
  simp [put, h]

/-- Helper: `put` leaves every other position alone. -/
theorem put_cells_ne (s : game_t) (v : vec_t) (c : cell_t) (p : vec_t) (h : p ≠ v) :
    (put s v c).cells p = s.cells p := by
  unfold put; split
  · simp [h]
  · rfl

/-- Helper: `get` only depends on the cell stored at the position. -/
theorem get_congr (s s' : game_t) (p : vec_t) (h : s'.cells p = s.cells p) :
    get s' p = get s p := by
  unfold get; rw [h]

/-- Helper: the cell written by `hibernate` at an in-bounds position. -/
theorem hibernate_cells_self (s : game_t) (v : vec_t) (h : inside v = true) :
    (hibernate s v).cells v =
      ⟨(s.cells v).tile, ((s.cells v).tick + 256 - s.tick) % 256⟩ := by
  simp [hibernate, get_of_inside s v h, put_cells_self _ _ _ h]

/-- Helper: `hibernate` leaves every other position alone. -/
theorem hibernate_cells_ne (s : game_t) (v : vec_t) (p : vec_t) (h : p ≠ v) :
    (hibernate s v).cells p = s.cells p := by
  simp [hibernate, put_cells_ne _ _ _ _ h]

/-- Helper: `hibernate` keeps the game tick. -/
theorem hibernate_tick (s : game_t) (v : vec_t) : (hibernate s v).tick = s.tick := by
  unfold hibernate
  exact put_tick _ _ _

/-- Helper: `veq` is propositional vector equality. -/
theorem veq_iff (a b : vec_t) : veq a b = true ↔ a = b := by
  simp [veq]

/-- Helper: advancing the clock never changes the cells. -/
theorem tick_next_iter_cells (s : game_t) (k : Nat) :
    (tick_next^[k] s).cells = s.cells := by
  induction k with
  | zero => rfl
  | succ n ih => rw [Function.iterate_succ_apply']; exact ih

/-- Helper: after a reset, `k` clock advances leave the counter at
`k % 256`. -/
theorem tick_iter_from_zero (s : game_t) (k : Nat) :
    (tick_next^[k] (tick_reset s)).tick = k % 256 := by
  induction k with
  | zero => rfl
  | succ n ih =>
    rw [Function.iterate_succ_apply']
    show ((tick_next^[n] (tick_reset s)).tick + 1) % 256 = (n + 1) % 256
    rw [ih, Nat.mod_add_mod]

/-- Helper: the empty-tile dispatch falls through every behaviour case. -/
theorem update_tile_empty (inp : input_t) (s : game_t) (v : vec_t) (k : Nat) :
    update_tile inp s v ⟨TILE_EMPTY, k⟩ = s := rfl

/-- Helper: an inert cell makes `update_cell` a no-op. -/
theorem update_cell_inert (inp : input_t) (s : game_t) (v : vec_t)
    (h : inert s v = true) : update_cell inp s v = s := by
  unfold update_cell
  show (if (get s v).tick ≠ s.tick then s else update_tile inp s v (get s v)) = s
  by_cases hg : (get s v).tick = s.tick
  · rw [if_neg (not_not_intro hg)]
    rw [inert, Bool.or_eq_true, Bool.not_eq_true'] at h
    rcases h with h | h
    · exact absurd hg (by rwa [wakes, decide_eq_false_iff_not] at h)
    · have h2 : (get s v).tile = TILE_EMPTY := of_decide_eq_true h
      have hc : get s v = (⟨TILE_EMPTY, (get s v).tick⟩ : cell_t) := by
        cases hgv : get s v
        simp only [hgv] at h2
        simp [h2]
      rw [hc, update_tile_empty]
  · rw [if_pos hg]

/-- Helper: a sweep fold over inert cells is a no-op. -/
theorem foldl_update_cell_id (inp : input_t) (l : List vec_t) (s : game_t)
    (h : ∀ v ∈ l, inert s v = true) :
    l.foldl (fun σ v => update_cell inp σ v) s = s := by
  induction l with
  | nil => rfl
  | cons a t ih =>
    rw [List.foldl_cons, update_cell_inert inp s a (h a (List.mem_cons_self a t))]
    exact ih (fun v hv => h v (List.mem_cons_of_mem a hv))

/-- Helper: a sweep whose only non-inert cell is `a` (at index `n`)
reduces to the single dispatch of `a`. -/
theorem sweep_single (inp : input_t) (b : vec_t) (s : game_t) (n : Nat) (a : vec_t)
    (hsplit : view_positions b =
      (view_positions b).take n ++ a :: (view_positions b).drop (n + 1))
    (h1 : ∀ v ∈ (view_positions b).take n, inert s v = true)
    (h2 : ∀ v ∈ (view_positions b).drop (n + 1),
      inert (update_cell inp s a) v = true) :
    view_sweep inp b s = update_cell inp s a := by
  unfold view_sweep
  rw [hsplit, List.foldl_append, foldl_update_cell_id inp _ s h1, List.foldl_cons]
  exact foldl_update_cell_id inp _ _ h2

/-- Helper: a sweep of only inert cells is a no-op. -/
theorem sweep_id (inp : input_t) (b : vec_t) (s : game_t)
    (h : ∀ v ∈ view_positions b, inert s v = true) :
    view_sweep inp b s = s :=
  foldl_update_cell_id inp _ s h

/-- Helper: a paused step with no un-pause toggle and no restart input is
a no-op. -/
theorem update_game_paused (restart : game_t) (inp : input_t) (s : game_t)
    (hp : s.paused = true)
    (ha : (s.dead && btnp inp BUTTON_A) = false)
    (hx : (!s.dead && btnp inp BUTTON_X) = false) :
    update_game restart inp s = s := by
  unfold update_game
  simp [ha, hx, hp]

/-- Helper: a step with the view away from the player's base rectangle
pans and does nothing else. -/
theorem update_game_pan (restart : game_t) (inp : input_t) (s : game_t)
    (ha : (s.dead && btnp inp BUTTON_A) = false)
    (hx : (!s.dead && btnp inp BUTTON_X) = false)
    (hp : s.paused = false)
    (hv : veq (vbase s.player) s.view = false) :
    update_game restart inp s = { s with view := pan_view s.view (vbase s.player) } := by
  unfold update_game
  simp [ha, hx, hp, hv]

/-- Helper: a sweep step that does not change the player's base rectangle
ends by incrementing the clock. -/
theorem update_game_sweep_nopage (restart : game_t) (inp : input_t) (s : game_t)
    (ha : (s.dead && btnp inp BUTTON_A) = false)
    (hx : (!s.dead && btnp inp BUTTON_X) = false)
    (hp : s.paused = false)
    (hv : veq (vbase s.player) s.view = true)
    (hpage : veq (vbase s.player) (vbase (view_sweep inp (vbase s.player) s).player) = true) :
    update_game restart inp s = tick_next (view_sweep inp (vbase s.player) s) := by
  unfold update_game
  simp [ha, hx, hp, hv, hpage]

/-- Helper: a sweep step that moves the player to a new base rectangle
ends by hibernating the swept rectangle plus the player's cell and
resetting the clock. -/
theorem update_game_sweep_page (restart : game_t) (inp : input_t) (s : game_t)
    (ha : (s.dead && btnp inp BUTTON_A) = false)
    (hx : (!s.dead && btnp inp BUTTON_X) = false)
    (hp : s.paused = false)
    (hv : veq (vbase s.player) s.view = true)
    (hpage : veq (vbase s.player) (vbase (view_sweep inp (vbase s.player) s).player) = false) :
    update_game restart inp s =
      tick_reset (hibernate (hib_sweep (vbase s.player) (view_sweep inp (vbase s.player) s))
        (view_sweep inp (vbase s.player) s).player) := by
  unfold update_game
  simp [ha, hx, hp, hv, hpage]

/-- Helper: the sweep rectangle as base-plus-offset images. -/
theorem view_positions_eq_map (b : vec_t) :
    view_positions b = view_offsets.map (fun q => vadd b q) := by
  unfold view_positions view_offsets
  simp [List.map_flatMap, List.map_map, Function.comp_def]

/-- Helper: the sweep offsets enumerated by a single range. -/
theorem view_offsets_enum :
    view_offsets = (List.range 512).map (fun (i : Nat) => vec2 (i % 32) (i / 32)) := by
  decide

/-- Helper: translation by a fixed base is injective. -/
theorem vadd_left_injective (b : vec_t) : Function.Injective (fun q => vadd b q) := by
  intro q1 q2 h
  cases q1; cases q2
  simp only [vadd, vec_t.mk.injEq] at h ⊢
  omega

/-- Helper: the sweep rectangle has no duplicate positions. -/
theorem view_positions_nodup (b : vec_t) : (view_positions b).Nodup := by
  rw [view_positions_eq_map, view_offsets_enum, List.map_map]
  refine (List.nodup_map_iff_inj_on (List.nodup_range 512)).mpr ?_
  intro i hi j hj h
  rw [List.mem_range] at hi hj
  simp only [Function.comp, vadd, vec2, vec_t.mk.injEq] at h
  omega

/-- Helper: membership in the sweep rectangle. -/
theorem view_positions_mem (b : vec_t) (p : vec_t) :
    p ∈ view_positions b ↔
      ∃ x y : Nat, x < 32 ∧ y < 16 ∧ p = vadd b (vec2 x y) := by
  simp only [view_positions, List.mem_flatMap, List.mem_map, List.mem_range]
  constructor
  · rintro ⟨y, hy, x, hx, rfl⟩
    exact ⟨x, y, hx, hy, rfl⟩
  · rintro ⟨x, y, hx, hy, rfl⟩
    exact ⟨y, hy, x, hx, rfl⟩

/-- Helper: the base of every vector is aligned to the viewport grid. -/
theorem vbase_aligned (r : vec_t) :
    (vbase r).x % VIEW_COLS = 0 ∧ (vbase r).y % VIEW_ROWS = 0 := by
  unfold vbase
  exact ⟨Int.mul_emod_left _ _, Int.mul_emod_left _ _⟩

/-- Helper: every cell of a nonnegative aligned base rectangle has that
base. -/
theorem vbase_of_mem_rect (b p : vec_t)
    (hbx : 0 ≤ b.x) (hby : 0 ≤ b.y)
    (hax : b.x % VIEW_COLS = 0) (hay : b.y % VIEW_ROWS = 0)
    (hmem : p ∈ view_positions b) : vbase p = b := by
  rw [view_positions_mem] at hmem
  obtain ⟨x, y, hx, hy, rfl⟩ := hmem
  rw [VIEW_COLS] at hax
  rw [VIEW_ROWS] at hay
  simp only [vbase, vadd, vec2, VIEW_COLS, VIEW_ROWS]
  ext
  · show (b.x + (x : Int)).tdiv 32 * 32 = b.x
    rw [Int.tdiv_eq_ediv (by omega) (by omega)]
    omega
  · show (b.y + (y : Int)).tdiv 16 * 16 = b.y
    rw [Int.tdiv_eq_ediv (by omega) (by omega)]
    omega

/-- Helper: every cell of a base rectangle lying within the map is in
bounds. -/
theorem inside_of_mem_rect (b p : vec_t)
    (hx0 : 0 ≤ b.x) (hx1 : b.x + VIEW_COLS ≤ MAP_COLS)
    (hy0 : 0 ≤ b.y) (hy1 : b.y + VIEW_ROWS ≤ MAP_ROWS)
    (hmem : p ∈ view_positions b) : inside p = true := by
  rw [view_positions_mem] at hmem
  obtain ⟨x, y, hx, hy, rfl⟩ := hmem
  rw [VIEW_COLS] at hx1
  rw [VIEW_ROWS] at hy1
  rw [MAP_COLS] at hx1
  rw [MAP_ROWS] at hy1
  simp only [inside, vadd, vec2, MAP_COLS, MAP_ROWS]
  apply decide_eq_true
  refine ⟨by omega, by omega, by omega, by omega⟩

/-- Helper: pointwise description of the hibernation fold over a
duplicate-free list of in-bounds positions. -/
theorem hib_fold_cells (l : List vec_t) (s : game_t) (hnd : l.Nodup)
    (hin : ∀ q ∈ l, inside q = true) (p : vec_t) :
    (l.foldl (fun σ v => hibernate σ v) s).cells p =
      if p ∈ l then ⟨(s.cells p).tile, ((s.cells p).tick + 256 - s.tick) % 256⟩
      else s.cells p := by
  induction l generalizing s with
  | nil => simp
  | cons q t ih =>
    rw [List.foldl_cons]
    have hqin := hin q (List.mem_cons_self q t)
    have hnd' := List.nodup_cons.mp hnd
    have hih := ih (hibernate s q) hnd'.2 (fun v hv => hin v (List.mem_cons_of_mem q hv))
    rw [hih]
    by_cases hpq : p = q
    · subst hpq
      rw [if_neg hnd'.1, if_pos (List.mem_cons_self p t), hibernate_cells_self s p hqin]
    · rw [hibernate_cells_ne s q p hpq, hibernate_tick]
      by_cases hpt : p ∈ t
      · rw [if_pos hpt, if_pos (List.mem_cons_of_mem q hpt)]
      · rw [if_neg hpt, if_neg (by simp [hpq, hpt])]

/-- Helper: the hibernation fold keeps the game tick. -/
theorem hib_fold_tick (l : List vec_t) (s : game_t) :
    (l.foldl (fun σ v => hibernate σ v) s).tick = s.tick := by
  induction l generalizing s with
  | nil => rfl
  | cons q t ih => rw [List.foldl_cons, ih, hibernate_tick]

/-- Helper: the `enclosed` loop is the conjunction of `iswall` over the
nine offsets. -/
theorem enclosed_iff (s : game_t) (v : vec_t) :
    enclosed s v = true ↔ ∀ o ∈ around, iswall s (vadd v o) = true := by
  simp [enclosed, List.all_eq_true]

/-- Helper: adding the zero offset is the identity. -/
theorem vadd_zero (v : vec_t) : vadd v ⟨0, 0⟩ = v := by
  cases v; simp [vadd]

/-- Helper: an enclosed position is itself a wall (the centre offset is
among the nine scanned). -/
theorem enclosed_center (s : game_t) (v : vec_t) (h : enclosed s v = true) :
    iswall s v = true := by
  have h0 := (enclosed_iff s v).mp h ⟨0, 0⟩ (by decide)
  rwa [vadd_zero] at h0

/-- Helper: promoting one cell never changes whether any position is a
wall. -/
theorem promote_cell_iswall (s : game_t) (q p : vec_t) :
    iswall (promote_cell s q) p = iswall s p := by
  unfold promote_cell
  split
  case isTrue h =>
    by_cases hpq : p = q
    · subst hpq
      by_cases hin : inside p = true
      · have hg : get (shape s p TILE_WALL_X 0) p = ⟨TILE_WALL_X, (s.tick + 0) % 256⟩ := by
          rw [get_of_inside _ _ hin]
          simp [shape, put_cells_self _ _ _ hin]
        rw [enclosed_center s p h]
        unfold iswall
        rw [hg]
        simp [TILE_WALL_0, TILE_WALL_1, TILE_WALL_2, TILE_WALL_3, TILE_WALL_X]
      · have hfalse : inside p = false := by
          cases hcase : inside p
          · rfl
          · exact absurd hcase hin
        have hno : shape s p TILE_WALL_X 0 = s := by
          simp [shape, put, hfalse]
        rw [hno]
    · have hc := get_congr s (shape s q TILE_WALL_X 0) p
        (by rw [shape]; exact put_cells_ne _ _ _ _ hpq)
      unfold iswall
      rw [hc]
  case isFalse h => rfl

/-- Helper: promoting one cell never changes enclosure anywhere. -/
theorem promote_cell_enclosed (s : game_t) (q v : vec_t) :
    enclosed (promote_cell s q) v = enclosed s v := by
  unfold enclosed
  congr 1
  funext o
  exact promote_cell_iswall s q (vadd v o)

/-- Helper: promoting one cell keeps the game tick. -/
theorem promote_cell_tick (s : game_t) (q : vec_t) :
    (promote_cell s q).tick = s.tick := by
  unfold promote_cell
  split
  · rw [shape, put_tick]
  · rfl

/-- Helper: a cell already holding the solid-wall sentinel survives the
rest of the promotion pass. -/
theorem promote_fold_keep (l : List vec_t) (s : game_t) (v : vec_t)
    (hin : inside v = true)
    (hv : s.cells v = ⟨TILE_WALL_X, s.tick % 256⟩) :
    (l.foldl (fun σ q => promote_cell σ q) s).cells v = ⟨TILE_WALL_X, s.tick % 256⟩ := by
  induction l generalizing s with
  | nil => exact hv
  | cons q t ih =>
    rw [List.foldl_cons]
    have htick := promote_cell_tick s q
    have hv' : (promote_cell s q).cells v = ⟨TILE_WALL_X, (promote_cell s q).tick % 256⟩ := by
      rw [htick]
      unfold promote_cell
      split
      · by_cases hq : v = q
        · subst hq
          rw [shape, put_cells_self _ _ _ hin, Nat.add_zero]
        · rw [shape, put_cells_ne _ _ _ _ hq]
          exact hv
      · exact hv
    have hres := ih (promote_cell s q) hv'
    rw [htick] at hres
    exact hres

/-- Helper: any position enclosed at the start of the promotion pass and
visited by it ends as the solid-wall sentinel. -/
theorem promote_fold_promotes (l : List vec_t) (s : game_t) (v : vec_t)
    (hmem : v ∈ l) (hin : inside v = true) (henc : enclosed s v = true) :
    (l.foldl (fun σ q => promote_cell σ q) s).cells v = ⟨TILE_WALL_X, s.tick % 256⟩ := by
  induction l generalizing s with
  | nil => cases hmem
  | cons q t ih =>
    rw [List.foldl_cons]
    by_cases hq : v = q
    · subst hq
      have hcell : (promote_cell s v).cells v = ⟨TILE_WALL_X, s.tick % 256⟩ := by
        unfold promote_cell
        rw [if_pos henc, shape, put_cells_self _ _ _ hin, Nat.add_zero]
      have hres := promote_fold_keep t (promote_cell s v) v hin
        (by rw [hcell, promote_cell_tick])
      rw [promote_cell_tick] at hres
      exact hres
    · have hmem' : v ∈ t := by
        rcases List.mem_cons.mp hmem with h | h
        · exact absurd h hq
        · exact h
      have henc' : enclosed (promote_cell s q) v = true := by
        rw [promote_cell_enclosed]; exact henc
      have hres := ih (promote_cell s q) hmem' henc'
      rw [promote_cell_tick] at hres
      exact hres

/-- Helper: the load/promotion position list contains exactly the
in-bounds positions. -/
theorem map_positions_mem (v : vec_t) : v ∈ map_positions ↔ inside v = true := by
  obtain ⟨a, b⟩ := v
  simp only [map_positions, List.mem_flatMap, List.mem_map, List.mem_range, inside,
    decide_eq_true_eq, MAP_COLS, MAP_ROWS, vec2, vec_t.mk.injEq]
  constructor
  · rintro ⟨y, hy, x, hx, rfl, rfl⟩
    refine ⟨by omega, by omega, by omega, by omega⟩
  · rintro ⟨h1, h2, h3, h4⟩
    exact ⟨b.toNat, by omega, a.toNat, by omega, by omega, by omega⟩

/-- Claim C1, hibernate round-trip: a cell with remaining delay `d` at
hibernation time (`(wakeTick + 256 - currentTick) % 256 = d`) gets its
wake tick rewritten to exactly `d` with the tile preserved, and after the
clock is reset to 0 it wakes exactly at the `d`-th subsequent clock value
and at no other value below 256. -/
theorem C1_hibernate_round_trip (s : game_t) (v : vec_t) (d : Nat)
    (hv : inside v = true)
    (hd : ((s.cells v).tick + 256 - s.tick) % 256 = d) :
    ((hibernate s v).cells v).tile = (s.cells v).tile ∧
    ((hibernate s v).cells v).tick = d ∧
    ∀ k : Nat, k < 256 →
      (wakes (tick_next^[k] (tick_reset (hibernate s v))) v = true ↔ k = d) := by
  refine ⟨?_, ?_, ?_⟩
  · rw [hibernate_cells_self s v hv]
  · rw [hibernate_cells_self s v hv]; exact hd
  · intro k hk
    have hcells : (tick_next^[k] (tick_reset (hibernate s v))).cells =
        (hibernate s v).cells := tick_next_iter_cells _ k
    have htick := tick_iter_from_zero (hibernate s v) k
    unfold wakes
    rw [get_of_inside _ _ hv, hcells, hibernate_cells_self s v hv, htick, hd,
      Nat.mod_eq_of_lt hk]
    simp [eq_comm]

/-- Witness for C1 at a concrete state: clock 10, cell wake tick 4,
remaining delay 250. -/
theorem C1_hibernate_round_trip_witness :
    inside (⟨3, 4⟩ : vec_t) = true ∧
    ((g1.cells ⟨3, 4⟩).tick + 256 - g1.tick) % 256 = 250 ∧
    ((hibernate g1 ⟨3, 4⟩).cells ⟨3, 4⟩).tick = 250 ∧
    wakes (tick_next^[250] (tick_reset (hibernate g1 ⟨3, 4⟩))) ⟨3, 4⟩ = true :=
  have h := C1_hibernate_round_trip g1 ⟨3, 4⟩ 250 (by decide) (by decide)
  ⟨by decide, by decide, h.2.1, (h.2.2 250 (by decide)).mpr rfl⟩

/-- Claim C2, tick wraparound: `shape` stores wake tick
`(currentTick + delay) % 256`; the cell then wakes exactly at that clock
value, and at any other clock value `update_cell` leaves the state
untouched. -/
theorem C2_tick_wraparound (s : game_t) (inp : input_t) (v : vec_t) (t d : Nat)
    (hv : inside v = true) :
    (shape s v t d).cells v = ⟨t, (s.tick + d) % 256⟩ ∧
    (∀ c : Nat,
      (wakes { shape s v t d with tick := c } v = true ↔ c = (s.tick + d) % 256)) ∧
    (∀ c : Nat, c ≠ (s.tick + d) % 256 →
      update_cell inp { shape s v t d with tick := c } v =
        { shape s v t d with tick := c }) := by
  have hcell : (shape s v t d).cells v = ⟨t, (s.tick + d) % 256⟩ := by
    simp [shape, put_cells_self _ _ _ hv]
  refine ⟨hcell, ?_, ?_⟩
  · intro c
    unfold wakes
    rw [get_of_inside _ _ hv]
    show decide (((shape s v t d).cells v).tick = c) = true ↔ c = (s.tick + d) % 256
    rw [hcell]
    simp [eq_comm]
  · intro c hc
    have hg : ¬ ((get { shape s v t d with tick := c } v).tick =
        ({ shape s v t d with tick := c } : game_t).tick) := by
      rw [get_of_inside _ _ hv]
      show ¬ (((shape s v t d).cells v).tick = c)
      rw [hcell]
      exact fun h => hc h.symm
    unfold update_cell
    simp only [if_pos hg]

/-- Witness for C2 at a concrete state: shaping a boulder with delay 7 at
clock 0. -/
theorem C2_tick_wraparound_witness :
    (shape g0 ⟨2, 2⟩ TILE_BOULDER 7).cells ⟨2, 2⟩ = ⟨TILE_BOULDER, 7⟩ ∧
    wakes { shape g0 ⟨2, 2⟩ TILE_BOULDER 7 with tick := 7 } ⟨2, 2⟩ = true ∧
    update_cell inp0 { shape g0 ⟨2, 2⟩ TILE_BOULDER 7 with tick := 9 } ⟨2, 2⟩ =
      { shape g0 ⟨2, 2⟩ TILE_BOULDER 7 with tick := 9 } :=
  have h := C2_tick_wraparound g0 inp0 ⟨2, 2⟩ TILE_BOULDER 7 (by decide)
  ⟨h.1.trans (by decide), (h.2.1 7).mpr (by decide), h.2.2 9 (by decide)⟩

/-- Claim C3, bounds safety: for every out-of-bounds position `get`
synthesizes a wall cell (`iswall` holds there) and `put` leaves the state
unchanged. -/
theorem C3_bounds_safety (s : game_t) (v : vec_t) (c : cell_t)
    (h : inside v = false) :
    get s v = ⟨TILE_WALL_0, 0⟩ ∧ iswall s v = true ∧ put s v c = s := by
  refine ⟨?_, ?_, ?_⟩
  · simp [get, h]
  · simp [iswall, get, h, TILE_WALL_0, TILE_WALL_1, TILE_WALL_2, TILE_WALL_3, TILE_WALL_X]
  · simp [put, h]

/-- Witness for C3 at a concrete far-out-of-bounds position. -/
theorem C3_bounds_safety_witness :
    inside (⟨-3, 999⟩ : vec_t) = false ∧
    get g0 ⟨-3, 999⟩ = ⟨TILE_WALL_0, 0⟩ ∧
    iswall g0 ⟨-3, 999⟩ = true ∧
    put g0 ⟨-3, 999⟩ ⟨5, 5⟩ = g0 :=
  have h := C3_bounds_safety g0 ⟨-3, 999⟩ ⟨5, 5⟩ (by decide)
  ⟨by decide, h.1, h.2.1, h.2.2⟩

/-- Counterexample to claim C4 as stated: in a concrete state that is
dead but not paused, a simulation step still executes behaviour — the
explosion cell at (5,5) advances to its next frame, so the grid is not
unchanged. -/
theorem C4_counterexample :
    g4.dead = true ∧ g4.paused = false ∧
    (update_game g0 inp0 g4).cells ⟨5, 5⟩ ≠ g4.cells ⟨5, 5⟩ := by
  refine ⟨rfl, rfl, ?_⟩
  have hb : vbase g4.player = (⟨0, 0⟩ : vec_t) := by decide
  have hs : view_sweep inp0 ⟨0, 0⟩ g4 = update_cell inp0 g4 ⟨5, 5⟩ :=
    sweep_single inp0 ⟨0, 0⟩ g4 165 ⟨5, 5⟩ (by decide) (by decide) (by decide)
  have h := update_game_sweep_nopage g0 inp0 g4 (by decide) (by decide) rfl (by decide)
    (by rw [hb, hs]; decide)
  rw [h, hb, hs]
  decide

/-- Claim C4 as amended: a step taken while paused (with no un-pause
toggle and no dead-restart input) changes nothing at all; being dead alone
does not skip the sweep (see the counterexample). -/
theorem C4_dead_paused_skip (restart : game_t) (inp : input_t) (s : game_t)
    (hp : s.paused = true)
    (ha : (s.dead && btnp inp BUTTON_A) = false)
    (hx : (!s.dead && btnp inp BUTTON_X) = false) :
    update_game restart inp s = s :=
  update_game_paused restart inp s hp ha hx

/-- Witness for the amended C4 at a concrete paused state. -/
theorem C4_dead_paused_skip_witness :
    update_game g0 inp0 { g0 with paused := true } = { g0 with paused := true } :=
  C4_dead_paused_skip g0 inp0 { g0 with paused := true } rfl (by decide) (by decide)

/-- Counterexample to claim C5 as stated: in the concrete page-crossing
step from `g5` the player's new cell (32,5) ends with wake tick 5 — the
code hibernated it — while the step the specification describes (hibernate
the old rectangle plus the vacated cell only, then reset) leaves it at 8;
moreover the concrete pan step from `g5b` is not a page-change step, yet
its tick counter is not incremented. -/
theorem C5_counterexample :
    vbase (view_sweep inpR ⟨0, 0⟩ g5).player ≠ g5.view ∧
    ((update_game g0 inpR g5).cells ⟨32, 5⟩).tick = 5 ∧
    ((spec_hibernate_vacated ⟨0, 0⟩ ⟨31, 5⟩ (view_sweep inpR ⟨0, 0⟩ g5)).cells ⟨32, 5⟩).tick = 8 ∧
    (update_game g0 inp0 g5b).tick = g5b.tick ∧
    (update_game g0 inp0 g5b).tick ≠ (g5b.tick + 1) % 256 ∧
    veq (vbase g5b.player) g5b.view = false := by
  have hb : vbase g5.player = (⟨0, 0⟩ : vec_t) := by decide
  have hs : view_sweep inpR ⟨0, 0⟩ g5 = update_cell inpR g5 ⟨31, 5⟩ :=
    sweep_single inpR ⟨0, 0⟩ g5 191 ⟨31, 5⟩ (by decide) (by decide) (by decide)
  have h := update_game_sweep_page g0 inpR g5 (by decide) (by decide) rfl (by decide)
    (by rw [hb, hs]; decide)
  rw [hb] at h
  have hpan := update_game_pan g0 inp0 g5b (by decide) (by decide) rfl (by decide)
  refine ⟨by rw [hs]; decide, ?_, by rw [hs]; decide, by rw [hpan], by rw [hpan]; decide,
    by decide⟩
  rw [h, hs]
  decide

/-- Claim C5 as amended: on a sweep step (no restart/pause input, view
already at the player base, viewport inside the map), if the sweep moved
the player to a new base rectangle then the step hibernates every cell of
the just-left viewport rectangle plus the player's current (new) cell and
resets the clock to 0; if the base did not change, the step just
increments the clock mod 256. -/
theorem C5_viewport_hibernation (restart : game_t) (inp : input_t) (s : game_t)
    (ha : (s.dead && btnp inp BUTTON_A) = false)
    (hx : (!s.dead && btnp inp BUTTON_X) = false)
    (hp : s.paused = false)
    (hv : vbase s.player = s.view)
    (hx0 : 0 ≤ s.view.x) (hx1 : s.view.x + VIEW_COLS ≤ MAP_COLS)
    (hy0 : 0 ≤ s.view.y) (hy1 : s.view.y + VIEW_ROWS ≤ MAP_ROWS)
    (hin : inside (view_sweep inp s.view s).player = true) :
    (vbase (view_sweep inp s.view s).player ≠ s.view →
      (update_game restart inp s).tick = 0 ∧
      ∀ p : vec_t, (update_game restart inp s).cells p =
        if p ∈ view_positions s.view ∨ p = (view_sweep inp s.view s).player
        then ⟨((view_sweep inp s.view s).cells p).tile,
              (((view_sweep inp s.view s).cells p).tick + 256 -
                (view_sweep inp s.view s).tick) % 256⟩
        else (view_sweep inp s.view s).cells p) ∧
    (vbase (view_sweep inp s.view s).player = s.view →
      update_game restart inp s = tick_next (view_sweep inp s.view s)) := by
  have hveq : veq (vbase s.player) s.view = true := (veq_iff _ _).mpr hv
  constructor
  · intro hne
    have hpage : veq (vbase s.player)
        (vbase (view_sweep inp (vbase s.player) s).player) = false := by
      rw [hv, Bool.eq_false_iff, Ne, veq_iff]
      exact fun h => hne h.symm
    have hug := update_game_sweep_page restart inp s ha hx hp hveq hpage
    rw [hv] at hug
    have halign := vbase_aligned s.player
    rw [hv] at halign
    have hplnot : (view_sweep inp s.view s).player ∉ view_positions s.view :=
      fun hmem => hne (vbase_of_mem_rect s.view _ hx0 hy0 halign.1 halign.2 hmem)
    have hhs : hib_sweep s.view (view_sweep inp s.view s) =
        List.foldl (fun σ v => hibernate σ v) (view_sweep inp s.view s)
          (view_positions s.view) := rfl
    have hfold := hib_fold_cells (view_positions s.view) (view_sweep inp s.view s)
      (view_positions_nodup _)
      (fun q hq => inside_of_mem_rect s.view q hx0 hx1 hy0 hy1 hq)
    have htick : (hib_sweep s.view (view_sweep inp s.view s)).tick =
        (view_sweep inp s.view s).tick := by
      rw [hhs, hib_fold_tick]
    refine ⟨by rw [hug]; rfl, fun p => ?_⟩
    rw [hug]
    show (hibernate (hib_sweep s.view (view_sweep inp s.view s))
        (view_sweep inp s.view s).player).cells p = _
    by_cases hpp : p = (view_sweep inp s.view s).player
    · have hcp : (hib_sweep s.view (view_sweep inp s.view s)).cells
          (view_sweep inp s.view s).player =
          (view_sweep inp s.view s).cells (view_sweep inp s.view s).player := by
        rw [hhs, hfold _, if_neg hplnot]
      rw [hpp, hibernate_cells_self _ _ hin, hcp, htick, if_pos (Or.inr rfl)]
    · rw [hibernate_cells_ne _ _ _ hpp]
      have hcp : (hib_sweep s.view (view_sweep inp s.view s)).cells p =
          if p ∈ view_positions s.view
          then ⟨((view_sweep inp s.view s).cells p).tile,
                (((view_sweep inp s.view s).cells p).tick + 256 -
                  (view_sweep inp s.view s).tick) % 256⟩
          else (view_sweep inp s.view s).cells p := by
        rw [hhs, hfold p]
      rw [hcp]
      by_cases hpm : p ∈ view_positions s.view
      · rw [if_pos hpm, if_pos (Or.inl hpm)]
      · rw [if_neg hpm, if_neg (by simp [hpm, hpp])]
  · intro heq
    have hpage : veq (vbase s.player)
        (vbase (view_sweep inp (vbase s.player) s).player) = true := by
      rw [hv, veq_iff]
      exact heq.symm
    have hug := update_game_sweep_nopage restart inp s ha hx hp hveq hpage
    rw [hv] at hug
    exact hug

/-- Witness for the amended C5 at the concrete page-crossing step from
`g5`: the clock resets and the player's new cell (32,5), outside the old
rectangle, is hibernated down to wake tick 5. -/
theorem C5_viewport_hibernation_witness :
    (update_game g0 inpR g5).tick = 0 ∧
    (update_game g0 inpR g5).cells ⟨32, 5⟩ = ⟨TILE_PLAYER_STAND, 5⟩ := by
  have hview : g5.view = (⟨0, 0⟩ : vec_t) := rfl
  have hsw0 : view_sweep inpR ⟨0, 0⟩ g5 = update_cell inpR g5 ⟨31, 5⟩ :=
    sweep_single inpR ⟨0, 0⟩ g5 191 ⟨31, 5⟩ (by decide) (by decide) (by decide)
  have hsw : view_sweep inpR g5.view g5 = update_cell inpR g5 ⟨31, 5⟩ := by
    rw [hview, hsw0]
  have h := (C5_viewport_hibernation g0 inpR g5 (by decide) (by decide) rfl (by decide)
    (by decide) (by decide) (by decide) (by decide) (by rw [hsw]; decide)).1
    (by rw [hsw]; decide)
  refine ⟨h.1, (h.2 ⟨32, 5⟩).trans ?_⟩
  rw [hsw]
  decide

/-- Claim C7, player damage law: damage below the current life reduces
life by exactly that amount without touching the dead flag; damage at or
above the current life zeroes life and sets the dead flag. -/
theorem C7_player_damage_law (s : game_t) (n : Int) :
    (n < s.life → (hurt s n).life = s.life - n ∧ (hurt s n).dead = s.dead) ∧
    (s.life ≤ n → (hurt s n).life = 0 ∧ (hurt s n).dead = true) := by
  constructor
  · intro h
    constructor <;> simp [hurt, h, shape]
  · intro h
    have h2 : ¬ n < s.life := not_lt.mpr h
    constructor <;> simp [hurt, h2, explode, shape]

/-- Witness for C7 at a concrete state with life 10: damage 3 and
damage 12. -/
theorem C7_player_damage_law_witness :
    ((hurt g0 3).life = 7 ∧ (hurt g0 3).dead = false) ∧
    ((hurt g0 12).life = 0 ∧ (hurt g0 12).dead = true) :=
  have h1 := (C7_player_damage_law g0 3).1 (by decide)
  have h2 := (C7_player_damage_law g0 12).2 (by decide)
  ⟨⟨h1.1.trans (by decide), h1.2.trans rfl⟩, h2⟩

/-- Counterexample to claim C8 as stated: all eight Chebyshev neighbours
of (5,5) are walls yet `enclosed` is false, because the source also tests
the centre cell. -/
theorem C8_counterexample :
    (∀ o ∈ ([⟨-1, -1⟩, ⟨0, -1⟩, ⟨1, -1⟩, ⟨-1, 0⟩, ⟨1, 0⟩, ⟨-1, 1⟩, ⟨0, 1⟩, ⟨1, 1⟩] : List vec_t),
      iswall g8 (vadd ⟨5, 5⟩ o) = true) ∧
    enclosed g8 ⟨5, 5⟩ = false :=
  ⟨by decide, by decide⟩

/-- Claim C8 as amended: `enclosed` holds exactly when the whole 3 by 3
block — the eight neighbours and the cell itself — is wall-kind, and the
load-time promotion pass rewrites every enclosed in-bounds position to the
absolute-wall sentinel. -/
theorem C8_enclosure (s : game_t) (v : vec_t) :
    (enclosed s v = true ↔ ∀ o ∈ around, iswall s (vadd v o) = true) ∧
    (inside v = true → enclosed s v = true →
      (promote_pass s).cells v = ⟨TILE_WALL_X, s.tick % 256⟩) := by
  refine ⟨enclosed_iff s v, fun hin henc => ?_⟩
  have heq : promote_pass s = List.foldl (fun σ q => promote_cell σ q) s map_positions := rfl
  rw [heq]
  exact promote_fold_promotes map_positions s v ((map_positions_mem v).mpr hin) hin henc

/-- Witness for the amended C8: with the centre also a wall, `enclosed`
holds and the pass promotes the cell. -/
theorem C8_enclosure_witness :
    enclosed g8w ⟨5, 5⟩ = true ∧
    (promote_pass g8w).cells ⟨5, 5⟩ = ⟨TILE_WALL_X, 0⟩ :=
  have h := C8_enclosure g8w ⟨5, 5⟩
  ⟨(h.1).mpr (by decide), (h.2 (by decide) ((h.1).mpr (by decide))).trans (by decide)⟩

/-- Claim C9, load failure: a missing level bitmap makes `start_game`
return the freshly reset state (all-empty grid, life 10, ammo 5, player at
the invalid sentinel); only a loaded bitmap of wrong dimensions hits the
fatal path. -/
theorem C9_load_failure :
    start_game none = Except.ok reset_game ∧
    reset_game.life = 10 ∧ reset_game.ammo = 5 ∧
    reset_game.player = invalid_position ∧
    (∀ v : vec_t, reset_game.cells v = ⟨TILE_EMPTY, 0⟩) ∧
    (∀ sf : surface_t, start_game (some sf) = Except.error () ↔ ¬(sf.w = 512 ∧ sf.h = 256)) := by
  refine ⟨rfl, rfl, rfl, rfl, fun v => rfl, fun sf => ?_⟩
  by_cases hdim : sf.w = 512 ∧ sf.h = 256
  · simp [start_game, hdim]
  · simp [start_game, hdim]

/-- Witness for C9 at a concrete 10 by 10 bitmap: the fatal path fires. -/
theorem C9_load_failure_witness :
    start_game (some ⟨10, 10, fun _ _ => 0⟩) = Except.error () :=
  (C9_load_failure.2.2.2.2.2 ⟨10, 10, fun _ _ => 0⟩).mpr (by decide)

/-- Claim C10: a dispatched monster whose chase destination is empty
moves there with no visibility check — the hypotheses even assert the
destination is not visible — whereas an arrow arriving at the same
invisible destination is dropped (source cleaned up, destination left
empty); and a monster parked outside the active viewport survives a whole
simulation step untouched. -/
theorem C10_monster_offscreen (s s1 : game_t) (src : vec_t) (cell : cell_t) (d : Nat)
    (hm : cell.tile = TILE_MONSTER_0 ∨ cell.tile = TILE_MONSTER_1 ∨
      cell.tile = TILE_MONSTER_2 ∨ cell.tile = TILE_MONSTER_3)
    (hchase : chase_dir s src s.player = (d, s1))
    (hemp : (get s1 (vmove src d)).tile = TILE_EMPTY)
    (hinvis : visible s1 (vmove src d) = false)
    (hdin : inside (vmove src d) = true)
    (hsin : inside src = true)
    (hne : vmove src d ≠ src) :
    ((update_monster s src cell).cells (vmove src d) =
        ⟨cell.tile, (s1.tick + 16) % 256⟩ ∧
      (update_monster s src cell).cells src = ⟨0, 0⟩) ∧
    (update_arrow g0 ⟨31, 5⟩ DIR_EAST false).cells ⟨32, 5⟩ = ⟨0, 0⟩ ∧
    (update_arrow g0 ⟨31, 5⟩ DIR_EAST false).cells ⟨31, 5⟩ = ⟨0, 0⟩ ∧
    visible gM2 ⟨32, 5⟩ = false ∧
    (update_game g0 inp0 gM2).cells ⟨32, 5⟩ = gM2.cells ⟨32, 5⟩ := by
  have hpersist : (update_game g0 inp0 gM2).cells ⟨32, 5⟩ = gM2.cells ⟨32, 5⟩ := by
    have hb : vbase gM2.player = (⟨0, 0⟩ : vec_t) := by decide
    have hsid : view_sweep inp0 ⟨0, 0⟩ gM2 = gM2 := sweep_id inp0 ⟨0, 0⟩ gM2 (by decide)
    have h := update_game_sweep_nopage g0 inp0 gM2 (by decide) (by decide) rfl (by decide)
      (by rw [hb, hsid]; decide)
    rw [h, hb, hsid]
    decide
  refine ⟨⟨?_, ?_⟩, by decide, by decide, by decide, hpersist⟩
  · unfold update_monster
    rw [hchase]
    simp only [hemp, if_true]
    rw [shape]
    have htk : ((clear s1 src).tick) = s1.tick := by simp [clear]
    rw [htk, put_cells_self _ _ _ hdin]
  · unfold update_monster
    rw [hchase]
    simp only [hemp, if_true]
    rw [shape, put_cells_ne _ _ _ _ (Ne.symm hne)]
    simp [clear, put_cells_self _ _ _ hsin]

/-- Witness for C10 at the concrete edge state `gM`: the tier-2 monster
moves from (31,5) to the invisible cell (32,5). -/
theorem C10_monster_offscreen_witness :
    (update_monster gM ⟨31, 5⟩ ⟨TILE_MONSTER_2, 1⟩).cells ⟨32, 5⟩ = ⟨TILE_MONSTER_2, 17⟩ ∧
    (update_monster gM ⟨31, 5⟩ ⟨TILE_MONSTER_2, 1⟩).cells ⟨31, 5⟩ = ⟨0, 0⟩ :=
  have h := C10_monster_offscreen gM gM ⟨31, 5⟩ ⟨TILE_MONSTER_2, 1⟩ DIR_EAST
    (by decide) rfl (by decide) (by decide) (by decide) (by decide) (by decide)
  ⟨h.1.1.trans (by decide), h.1.2⟩

theorem put_flasks (s : game_t) (v : vec_t) (c : cell_t) :
    (put s v c).flasks = s.flasks := by
  unfold put; split <;> rfl

theorem put_keys (s : game_t) (v : vec_t) (c : cell_t) :
    (put s v c).keys = s.keys := by
  unfold put; split <;> rfl

theorem put_gold (s : game_t) (v : vec_t) (c : cell_t) :
    (put s v c).gold = s.gold := by
  unfold put; split <;> rfl


/-- Helper: `hibernate` keeps the player position. -/
theorem hibernate_player (s : game_t) (v : vec_t) : (hibernate s v).player = s.player := by
  unfold hibernate
  exact put_player _ _ _

/-- Helper: `hibernate` keeps the view origin. -/
theorem hibernate_view (s : game_t) (v : vec_t) : (hibernate s v).view = s.view := by
  unfold hibernate
  exact put_view _ _ _

/-- Helper: `hibernate` keeps the dead flag. -/
theorem hibernate_dead (s : game_t) (v : vec_t) : (hibernate s v).dead = s.dead := by
  unfold hibernate
  exact put_dead _ _ _

/-- Helper: `hibernate` keeps the paused flag. -/
theorem hibernate_paused (s : game_t) (v : vec_t) : (hibernate s v).paused = s.paused := by
  unfold hibernate
  exact put_paused _ _ _

/-- Helper: the hibernation fold keeps the player position. -/
theorem hib_fold_player (l : List vec_t) (s : game_t) :
    (l.foldl (fun σ v => hibernate σ v) s).player = s.player := by
  induction l generalizing s with
  | nil => rfl
  | cons q t ih => rw [List.foldl_cons, ih, hibernate_player]

/-- Helper: the hibernation fold keeps the view origin. -/
theorem hib_fold_view (l : List vec_t) (s : game_t) :
    (l.foldl (fun σ v => hibernate σ v) s).view = s.view := by
  induction l generalizing s with
  | nil => rfl
  | cons q t ih => rw [List.foldl_cons, ih, hibernate_view]

/-- Helper: the hibernation fold keeps the dead flag. -/
theorem hib_fold_dead (l : List vec_t) (s : game_t) :
    (l.foldl (fun σ v => hibernate σ v) s).dead = s.dead := by
  induction l generalizing s with
  | nil => rfl
  | cons q t ih => rw [List.foldl_cons, ih, hibernate_dead]

/-- Helper: the hibernation fold keeps the paused flag. -/
theorem hib_fold_paused (l : List vec_t) (s : game_t) :
    (l.foldl (fun σ v => hibernate σ v) s).paused = s.paused := by
  induction l generalizing s with
  | nil => rfl
  | cons q t ih => rw [List.foldl_cons, ih, hibernate_paused]

/-- Helper: the colour switch at the player-spawn colour. -/
theorem load_color_white (s : game_t) (v : vec_t) :
    load_color s v 0xffffff = { shape s v TILE_PLAYER_STAND 1 with player := v } := rfl

/-- Helper: the colour switch at an unrecognized colour (plain floor). -/
theorem load_color_floor (s : game_t) (v : vec_t) :
    load_color s v 0 = clear s v := rfl

/-- Helper: the pixel of the one-player bitmap at the spawn position. -/
theorem surfA_pixel_white : surfA.pixel 31 5 = 0xffffff := rfl

/-- Helper: the load step of the one-player bitmap at the spawn cell. -/
theorem load_cellA_white (s : game_t) :
    load_cell surfA s ⟨31, 5⟩ =
      { shape s ⟨31, 5⟩ TILE_PLAYER_STAND 1 with player := ⟨31, 5⟩ } := rfl

/-- Helper: the load step of the one-player bitmap anywhere else. -/
theorem load_cellA_other (s : game_t) (v : vec_t)
    (hv : inside v = true) (hne : v ≠ ⟨31, 5⟩) :
    load_cell surfA s v = clear s v := by
  have hb := of_decide_eq_true hv
  have hpix : surfA.pixel v.x.toNat v.y.toNat = 0 := by
    show (if v.x.toNat = 31 ∧ v.y.toNat = 5 then 0xffffff else 0) = 0
    rw [if_neg]
    rintro ⟨h1, h2⟩
    apply hne
    ext
    · show v.x = 31
      omega
    · show v.y = 5
      omega
  show load_color s v (surfA.pixel v.x.toNat v.y.toNat) = clear s v
  rw [hpix, load_color_floor]

/-- Helper: the load fold of the one-player bitmap keeps every scalar
field of the state. -/
theorem loadA_fold_scalars (l : List vec_t) (s : game_t) (hin : ∀ v ∈ l, inside v = true) :
    (l.foldl (fun σ v => load_cell surfA σ v) s).tick = s.tick ∧
    (l.foldl (fun σ v => load_cell surfA σ v) s).rand = s.rand ∧
    (l.foldl (fun σ v => load_cell surfA σ v) s).paused = s.paused ∧
    (l.foldl (fun σ v => load_cell surfA σ v) s).dead = s.dead ∧
    (l.foldl (fun σ v => load_cell surfA σ v) s).view = s.view ∧
    (l.foldl (fun σ v => load_cell surfA σ v) s).life = s.life ∧
    (l.foldl (fun σ v => load_cell surfA σ v) s).ammo = s.ammo ∧
    (l.foldl (fun σ v => load_cell surfA σ v) s).flasks = s.flasks ∧
    (l.foldl (fun σ v => load_cell surfA σ v) s).keys = s.keys ∧
    (l.foldl (fun σ v => load_cell surfA σ v) s).gold = s.gold := by
  induction l generalizing s with
  | nil => exact ⟨rfl, rfl, rfl, rfl, rfl, rfl, rfl, rfl, rfl, rfl⟩
  | cons q t ih =>
    have hqin := hin q (List.mem_cons_self q t)
    have ih2 := ih (load_cell surfA s q) (fun v hv => hin v (List.mem_cons_of_mem q hv))
    have hstep : (load_cell surfA s q).tick = s.tick ∧
        (load_cell surfA s q).rand = s.rand ∧
        (load_cell surfA s q).paused = s.paused ∧
        (load_cell surfA s q).dead = s.dead ∧
        (load_cell surfA s q).view = s.view ∧
        (load_cell surfA s q).life = s.life ∧
        (load_cell surfA s q).ammo = s.ammo ∧
        (load_cell surfA s q).flasks = s.flasks ∧
        (load_cell surfA s q).keys = s.keys ∧
        (load_cell surfA s q).gold = s.gold := by
      by_cases hq : q = ⟨31, 5⟩
      · subst hq
        rw [load_cellA_white]
        refine ⟨?_, ?_, ?_, ?_, ?_, ?_, ?_, ?_, ?_, ?_⟩ <;> simp [shape, put_flasks, put_keys, put_gold]
      · rw [load_cellA_other s q hqin hq]
        refine ⟨?_, ?_, ?_, ?_, ?_, ?_, ?_, ?_, ?_, ?_⟩ <;> simp [clear, put_flasks, put_keys, put_gold]
    rw [List.foldl_cons]
    refine ⟨?_, ?_, ?_, ?_, ?_, ?_, ?_, ?_, ?_, ?_⟩
    · rw [ih2.1, hstep.1]
    · rw [ih2.2.1, hstep.2.1]
    · rw [ih2.2.2.1, hstep.2.2.1]
    · rw [ih2.2.2.2.1, hstep.2.2.2.1]
    · rw [ih2.2.2.2.2.1, hstep.2.2.2.2.1]
    · rw [ih2.2.2.2.2.2.1, hstep.2.2.2.2.2.1]
    · rw [ih2.2.2.2.2.2.2.1, hstep.2.2.2.2.2.2.1]
    · rw [ih2.2.2.2.2.2.2.2.1, hstep.2.2.2.2.2.2.2.1]
    · rw [ih2.2.2.2.2.2.2.2.2.1, hstep.2.2.2.2.2.2.2.2.1]
    · rw [ih2.2.2.2.2.2.2.2.2.2, hstep.2.2.2.2.2.2.2.2.2]

/-- Helper: the load fold of the one-player bitmap records the player
position exactly when the spawn cell was visited. -/
theorem loadA_fold_player (l : List vec_t) (s : game_t) (hin : ∀ v ∈ l, inside v = true) :
    (l.foldl (fun σ v => load_cell surfA σ v) s).player =
      if (⟨31, 5⟩ : vec_t) ∈ l then ⟨31, 5⟩ else s.player := by
  induction l generalizing s with
  | nil => rfl
  | cons q t ih =>
    have hqin := hin q (List.mem_cons_self q t)
    have ih2 := ih (load_cell surfA s q) (fun v hv => hin v (List.mem_cons_of_mem q hv))
    rw [List.foldl_cons, ih2]
    by_cases hq : q = ⟨31, 5⟩
    · subst hq
      rw [if_pos (List.mem_cons_self _ t)]
      by_cases hmem : (⟨31, 5⟩ : vec_t) ∈ t
      · rw [if_pos hmem]
      · rw [if_neg hmem, load_cellA_white]
    · rw [load_cellA_other s q hqin hq]
      have hiff : ((⟨31, 5⟩ : vec_t) ∈ q :: t) ↔ ((⟨31, 5⟩ : vec_t) ∈ t) := by
        rw [List.mem_cons]
        constructor
        · rintro (h | h)
          · exact absurd h.symm hq
          · exact h
        · exact fun h => Or.inr h
      by_cases hmem : (⟨31, 5⟩ : vec_t) ∈ t
      · rw [if_pos hmem, if_pos (hiff.mpr hmem)]
      · rw [if_neg hmem, if_neg (fun h => hmem (hiff.mp h))]
        show (clear s q).player = s.player
        simp [clear]

/-- Helper: the cells produced by the load fold of the one-player
bitmap. -/
theorem loadA_fold_cells (l : List vec_t) (s : game_t) (hin : ∀ v ∈ l, inside v = true)
    (p : vec_t) :
    (l.foldl (fun σ v => load_cell surfA σ v) s).cells p =
      if (⟨31, 5⟩ : vec_t) ∈ l ∧ p = ⟨31, 5⟩ then ⟨TILE_PLAYER_STAND, (s.tick + 1) % 256⟩
      else if p ∈ l then ⟨0, 0⟩
      else s.cells p := by
  induction l generalizing s with
  | nil => simp
  | cons q t ih =>
    have hqin := hin q (List.mem_cons_self q t)
    have ih2 := ih (load_cell surfA s q) (fun v hv => hin v (List.mem_cons_of_mem q hv))
    have htick : (load_cell surfA s q).tick = s.tick := by
      by_cases hq : q = ⟨31, 5⟩
      · subst hq; rw [load_cellA_white]; simp [shape]
      · rw [load_cellA_other s q hqin hq]; simp [clear]
    rw [List.foldl_cons, ih2, htick]
    by_cases hq : q = ⟨31, 5⟩
    · subst hq
      have hql : (⟨31, 5⟩ : vec_t) ∈ (⟨31, 5⟩ : vec_t) :: t := List.mem_cons_self _ t
      by_cases hp : p = ⟨31, 5⟩
      · subst hp
        have hy1 : ((⟨31, 5⟩ : vec_t) ∈ (⟨31, 5⟩ : vec_t) :: t ∧
            (⟨31, 5⟩ : vec_t) = (⟨31, 5⟩ : vec_t)) := ⟨hql, rfl⟩
        rw [if_pos hy1]
        by_cases hmem : (⟨31, 5⟩ : vec_t) ∈ t
        · have hy2 : ((⟨31, 5⟩ : vec_t) ∈ t ∧ (⟨31, 5⟩ : vec_t) = (⟨31, 5⟩ : vec_t)) :=
            ⟨hmem, rfl⟩
          rw [if_pos hy2]
        · have hn2 : ¬((⟨31, 5⟩ : vec_t) ∈ t ∧ (⟨31, 5⟩ : vec_t) = ⟨31, 5⟩) :=
            fun h => hmem h.1
          rw [if_neg hn2, if_neg hmem]
          rw [load_cellA_white]
          have hcc : ({ shape s ⟨31, 5⟩ TILE_PLAYER_STAND 1 with
              player := ⟨31, 5⟩ } : game_t).cells =
              (shape s ⟨31, 5⟩ TILE_PLAYER_STAND 1).cells := rfl
          rw [hcc, shape, put_cells_self _ _ _ hqin]
      · have hn1 : ¬((⟨31, 5⟩ : vec_t) ∈ (⟨31, 5⟩ : vec_t) :: t ∧ p = ⟨31, 5⟩) :=
          fun h => hp h.2
        have hn2 : ¬((⟨31, 5⟩ : vec_t) ∈ t ∧ p = ⟨31, 5⟩) := fun h => hp h.2
        rw [if_neg hn1, if_neg hn2]
        have hcell : (load_cell surfA s ⟨31, 5⟩).cells p = s.cells p := by
          rw [load_cellA_white]
          have hcc : ({ shape s ⟨31, 5⟩ TILE_PLAYER_STAND 1 with
              player := ⟨31, 5⟩ } : game_t).cells =
              (shape s ⟨31, 5⟩ TILE_PLAYER_STAND 1).cells := rfl
          rw [hcc, shape, put_cells_ne _ _ _ _ hp]
        by_cases hpt : p ∈ t
        · rw [if_pos hpt, if_pos (List.mem_cons_of_mem _ hpt)]
        · rw [if_neg hpt, if_neg (show ¬(p ∈ (⟨31, 5⟩ : vec_t) :: t) by simp [hp, hpt]),
            hcell]
    · have hstep : ∀ r : vec_t, (load_cell surfA s q).cells r =
          if r = q then ⟨0, 0⟩ else s.cells r := by
        intro r
        rw [load_cellA_other s q hqin hq]
        by_cases hr : r = q
        · subst hr; rw [if_pos rfl]; show (put s r ⟨0, 0⟩).cells r = _
          rw [put_cells_self _ _ _ hqin]
        · rw [if_neg hr]; show (put s q ⟨0, 0⟩).cells r = _
          rw [put_cells_ne _ _ _ _ hr]
      have hmemiff : ((⟨31, 5⟩ : vec_t) ∈ q :: t) ↔ ((⟨31, 5⟩ : vec_t) ∈ t) := by
        rw [List.mem_cons]
        constructor
        · rintro (h | h)
          · exact absurd h.symm hq
          · exact h
        · exact fun h => Or.inr h
      by_cases hfirst : (⟨31, 5⟩ : vec_t) ∈ t ∧ p = ⟨31, 5⟩
      · have hy3 : ((⟨31, 5⟩ : vec_t) ∈ q :: t ∧ p = ⟨31, 5⟩) :=
          ⟨hmemiff.mpr hfirst.1, hfirst.2⟩
        rw [if_pos hfirst, if_pos hy3]
      · have hy4 : ¬((⟨31, 5⟩ : vec_t) ∈ q :: t ∧ p = ⟨31, 5⟩) :=
          fun h => hfirst ⟨hmemiff.mp h.1, h.2⟩
        rw [if_neg hfirst, if_neg hy4]
        by_cases hpt : p ∈ t
        · rw [if_pos hpt, if_pos (List.mem_cons_of_mem _ hpt)]
        · rw [if_neg hpt, hstep p]
          by_cases hpq : p = q
          · rw [if_pos hpq, if_pos (by rw [hpq]; exact List.mem_cons_self q t)]
          · rw [if_neg hpq, if_neg (by simp [hpq, hpt])]


/-- Helper: a promotion pass over positions none of which are enclosed is
a no-op. -/
theorem promote_fold_nop (l : List vec_t) (s : game_t)
    (h : ∀ v ∈ l, enclosed s v = false) :
    l.foldl (fun σ q => promote_cell σ q) s = s := by
  induction l with
  | nil => rfl
  | cons q t ih =>
    have hq : promote_cell s q = s := by
      unfold promote_cell
      rw [if_neg]
      rw [h q (List.mem_cons_self q t)]
      exact (by decide)
    rw [List.foldl_cons, hq]
    exact ih (fun v hv => h v (List.mem_cons_of_mem q hv))

/-- Helper: a position whose own tile is not wall-kind is not enclosed. -/
theorem enclosed_false_of_center (s : game_t) (v : vec_t) (h : iswall s v = false) :
    enclosed s v = false := by
  cases hc : enclosed s v
  · rfl
  · rw [enclosed_center s v hc] at h
    exact absurd h (by decide)

/-- Helper: cell contents after the load pass over the one-player
bitmap. -/
theorem loadA_cells :
    ∀ p, (map_positions.foldl (fun σ v => load_cell surfA σ v) reset_game).cells p =
      if p = ⟨31, 5⟩ then ⟨TILE_PLAYER_STAND, 1⟩ else ⟨0, 0⟩ := by
  have hin : ∀ v ∈ map_positions, inside v = true := fun v hv => (map_positions_mem v).mp hv
  have hmem315 : (⟨31, 5⟩ : vec_t) ∈ map_positions := (map_positions_mem _).mpr (by decide)
  intro p
  rw [loadA_fold_cells map_positions reset_game hin p]
  by_cases hp : p = ⟨31, 5⟩
  · have hy : ((⟨31, 5⟩ : vec_t) ∈ map_positions ∧ p = ⟨31, 5⟩) := ⟨hmem315, hp⟩
    rw [if_pos hy, if_pos hp]
    rfl
  · have hy : ¬((⟨31, 5⟩ : vec_t) ∈ map_positions ∧ p = ⟨31, 5⟩) := fun h => hp h.2
    rw [if_neg hy, if_neg hp]
    by_cases hpm : p ∈ map_positions
    · rw [if_pos hpm]
    · rw [if_neg hpm]
      rfl

theorem loadA_player :
    (map_positions.foldl (fun σ v => load_cell surfA σ v) reset_game).player = sA.player := by
  have hin : ∀ v ∈ map_positions, inside v = true := fun v hv => (map_positions_mem v).mp hv
  have hmem315 : (⟨31, 5⟩ : vec_t) ∈ map_positions := (map_positions_mem _).mpr (by decide)
  have hpl := loadA_fold_player map_positions reset_game hin
  rw [if_pos hmem315] at hpl
  rw [hpl]
  rfl

theorem loadA_scalars_A :
    (map_positions.foldl (fun σ v => load_cell surfA σ v) reset_game).paused = sA.paused ∧
    (map_positions.foldl (fun σ v => load_cell surfA σ v) reset_game).dead = sA.dead ∧
    (map_positions.foldl (fun σ v => load_cell surfA σ v) reset_game).rand = sA.rand ∧
    (map_positions.foldl (fun σ v => load_cell surfA σ v) reset_game).tick = sA.tick ∧
    (map_positions.foldl (fun σ v => load_cell surfA σ v) reset_game).view = sA.view ∧
    (map_positions.foldl (fun σ v => load_cell surfA σ v) reset_game).life = sA.life ∧
    (map_positions.foldl (fun σ v => load_cell surfA σ v) reset_game).ammo = sA.ammo ∧
    (map_positions.foldl (fun σ v => load_cell surfA σ v) reset_game).flasks = sA.flasks ∧
    (map_positions.foldl (fun σ v => load_cell surfA σ v) reset_game).keys = sA.keys ∧
    (map_positions.foldl (fun σ v => load_cell surfA σ v) reset_game).gold = sA.gold := by
  have hin : ∀ v ∈ map_positions, inside v = true := fun v hv => (map_positions_mem v).mp hv
  have hsc := loadA_fold_scalars map_positions reset_game hin
  refine ⟨?_, ?_, ?_, ?_, ?_, ?_, ?_, ?_, ?_, ?_⟩ <;> first
  | (rw [hsc.2.2.1]; rfl)
  | (rw [hsc.2.2.2.1]; rfl)
  | (rw [hsc.2.1]; rfl)
  | (rw [hsc.1]; rfl)
  | (rw [hsc.2.2.2.2.1]; rfl)
  | (rw [hsc.2.2.2.2.2.1]; rfl)
  | (rw [hsc.2.2.2.2.2.2.1]; rfl)
  | (rw [hsc.2.2.2.2.2.2.2.1]; rfl)
  | (rw [hsc.2.2.2.2.2.2.2.2.1]; rfl)
  | (rw [hsc.2.2.2.2.2.2.2.2.2]; rfl)

theorem loadA_cells_fun :
    (map_positions.foldl (fun σ v => load_cell surfA σ v) reset_game).cells = sA.cells :=
  funext (fun p => (loadA_cells p).trans (by rfl))

/-- Helper: the load pass over the one-player bitmap yields exactly `sA`. -/
theorem loadA_eq : load_pass surfA reset_game = sA := by
  apply game_t.ext
  · exact loadA_scalars_A.1
  · exact loadA_scalars_A.2.1
  · exact loadA_scalars_A.2.2.1
  · exact loadA_scalars_A.2.2.2.1
  · exact loadA_player
  · exact loadA_scalars_A.2.2.2.2.1
  · exact loadA_scalars_A.2.2.2.2.2.1
  · exact loadA_scalars_A.2.2.2.2.2.2.1
  · exact loadA_scalars_A.2.2.2.2.2.2.2.1
  · exact loadA_scalars_A.2.2.2.2.2.2.2.2.1
  · exact loadA_scalars_A.2.2.2.2.2.2.2.2.2
  · exact loadA_cells_fun

/-- Helper: the loaded-and-centred state from the one-player bitmap is
exactly `sA`. -/
theorem loadA_state :
    ({ load_pass surfA reset_game with
      view := vbase (load_pass surfA reset_game).player } : game_t) = sA := by
  rw [loadA_eq]
  apply game_t.ext
  · rfl
  · rfl
  · rfl
  · rfl
  · rfl
  · show vbase sA.player = sA.view
    decide
  · rfl
  · rfl
  · rfl
  · rfl
  · rfl
  · rfl


/-- Helper: in `sA` no in-bounds position is a wall. -/
theorem sA_nowall : ∀ v, inside v = true → iswall sA v = false := by
  intro v hv
  by_cases hp : v = ⟨31, 5⟩
  · subst hp
    decide
  · have hc : sA.cells v = ⟨0, 0⟩ := by
      show (if v = ⟨31, 5⟩ then (⟨TILE_PLAYER_STAND, 1⟩ : cell_t) else ⟨0, 0⟩) = ⟨0, 0⟩
      rw [if_neg hp]
    unfold iswall
    rw [get_of_inside _ _ hv, hc]
    decide

/-- Helper: the promotion pass leaves `sA` unchanged. -/
theorem promote_sA : promote_pass sA = sA := by
  have hbr : promote_pass sA =
      map_positions.foldl (fun σ q => promote_cell σ q) sA := rfl
  rw [hbr]
  exact promote_fold_nop map_positions sA
    (fun v hv => enclosed_false_of_center sA v (sA_nowall v ((map_positions_mem v).mp hv)))

/-- Helper: `start_game` on the one-player bitmap, reduced one step. -/
theorem start_game_surfA_step : start_game (some surfA) =
    Except.ok (promote_pass ({ load_pass surfA reset_game with
      view := vbase (load_pass surfA reset_game).player } : game_t)) := rfl

/-- Helper: `start_game` on the one-player bitmap produces exactly the
explicit state `sA`. -/
theorem start_game_surfA : start_game (some surfA) = Except.ok sA := by
  rw [start_game_surfA_step, loadA_state, promote_sA]

/-- Helper: promoting one cell keeps the view origin. -/
theorem promote_cell_view (s : game_t) (q : vec_t) :
    (promote_cell s q).view = s.view := by
  unfold promote_cell
  split
  · simp [shape]
  · rfl

/-- Helper: the promotion pass keeps the view origin. -/
theorem promote_fold_view (l : List vec_t) (s : game_t) :
    (l.foldl (fun σ q => promote_cell σ q) s).view = s.view := by
  induction l generalizing s with
  | nil => rfl
  | cons q t ih => rw [List.foldl_cons, ih, promote_cell_view]

/-- C6 as amended: the view origin is grid-aligned in every state produced
by `start_game`; during smooth panning after a page change it can be
temporarily unaligned (see the counterexample). -/
theorem C6_view_alignment (surf : Option surface_t) (s : game_t)
    (h : start_game surf = Except.ok s) :
    s.view.x % VIEW_COLS = 0 ∧ s.view.y % VIEW_ROWS = 0 := by
  cases surf with
  | none =>
    have h' : (Except.ok reset_game : Except Unit game_t) = Except.ok s := h
    obtain rfl := Except.ok.inj h'
    decide
  | some sf =>
    have h' : (if sf.w = 512 ∧ sf.h = 256 then
        Except.ok (promote_pass ({ load_pass sf reset_game with
          view := vbase (load_pass sf reset_game).player } : game_t))
      else (Except.error () : Except Unit game_t)) = Except.ok s := h
    by_cases hd : sf.w = 512 ∧ sf.h = 256
    · rw [if_pos hd] at h'
      obtain rfl := Except.ok.inj h'
      have hbr : promote_pass ({ load_pass sf reset_game with
          view := vbase (load_pass sf reset_game).player } : game_t) =
          map_positions.foldl (fun σ q => promote_cell σ q)
            ({ load_pass sf reset_game with
              view := vbase (load_pass sf reset_game).player } : game_t) := rfl
      rw [hbr, promote_fold_view]
      have hv : ({ load_pass sf reset_game with
          view := vbase (load_pass sf reset_game).player } : game_t).view =
          vbase (load_pass sf reset_game).player := rfl
      rw [hv]
      exact vbase_aligned _
    · rw [if_neg hd] at h'
      cases h'

/-- C6 witness: applied to the reset state produced when no bitmap loads. -/
theorem C6_view_alignment_witness :
    start_game none = Except.ok reset_game ∧
    reset_game.view.x % VIEW_COLS = 0 ∧ reset_game.view.y % VIEW_ROWS = 0 :=
  ⟨rfl, C6_view_alignment none reset_game rfl⟩

/-- C6 counterexample to the claim as stated: the three-step run `sB3`
from the loaded state `sA` is reachable, yet its view origin (2,0) is not
a multiple of the viewport width, because a page change is followed by
smooth panning in 2-tile steps. -/
theorem C6_counterexample :
    Reachable sB3 ∧ ¬(sB3.view.x % VIEW_COLS = 0 ∧ sB3.view.y % VIEW_ROWS = 0) := by
  constructor
  · have r0 : Reachable sA := Reachable.start (some surfA) sA start_game_surfA
    have r1 := Reachable.step sA sA (some surfA) inp0 r0 start_game_surfA
    have r2 := Reachable.step (update_game sA inp0 sA) sA (some surfA) inpR r1 start_game_surfA
    exact Reachable.step _ sA (some surfA) inp0 r2 start_game_surfA
  · have hb1 : vbase sA.player = (⟨0, 0⟩ : vec_t) := by decide
    have hsw1 : view_sweep inp0 ⟨0, 0⟩ sA = sA := sweep_id inp0 ⟨0, 0⟩ sA (by decide)
    have h1 := update_game_sweep_nopage sA inp0 sA (by decide) (by decide) rfl (by decide)
      (by rw [hb1, hsw1]; decide)
    rw [hb1, hsw1] at h1
    have hb2 : vbase (tick_next sA).player = (⟨0, 0⟩ : vec_t) := by decide
    have hsw2 : view_sweep inpR ⟨0, 0⟩ (tick_next sA) =
        update_cell inpR (tick_next sA) ⟨31, 5⟩ :=
      sweep_single inpR ⟨0, 0⟩ (tick_next sA) 191 ⟨31, 5⟩ (by decide) (by decide) (by decide)
    have h2 := update_game_sweep_page sA inpR (tick_next sA) (by decide) (by decide) rfl
      (by decide) (by rw [hb2, hsw2]; decide)
    rw [hb2, hsw2] at h2
    have hproj : ∀ (b : vec_t) (x : game_t),
        (tick_reset (hibernate (hib_sweep b x) x.player)).player = x.player ∧
        (tick_reset (hibernate (hib_sweep b x) x.player)).view = x.view ∧
        (tick_reset (hibernate (hib_sweep b x) x.player)).dead = x.dead ∧
        (tick_reset (hibernate (hib_sweep b x) x.player)).paused = x.paused := by
      intro b x
      have hbr : hib_sweep b x =
          (view_positions b).foldl (fun σ v => hibernate σ v) x := rfl
      refine ⟨?_, ?_, ?_, ?_⟩
      · show (hibernate (hib_sweep b x) x.player).player = x.player
        rw [hibernate_player, hbr, hib_fold_player]
      · show (hibernate (hib_sweep b x) x.player).view = x.view
        rw [hibernate_view, hbr, hib_fold_view]
      · show (hibernate (hib_sweep b x) x.player).dead = x.dead
        rw [hibernate_dead, hbr, hib_fold_dead]
      · show (hibernate (hib_sweep b x) x.player).paused = x.paused
        rw [hibernate_paused, hbr, hib_fold_paused]
    have hstep3 : ∀ x : game_t, x.player = ⟨32, 5⟩ → x.view = ⟨0, 0⟩ → x.dead = false →
        x.paused = false → (update_game sA inp0 x).view = ⟨2, 0⟩ := by
      intro x hp hv hd hpa
      have h3 := update_game_pan sA inp0 x (by rw [hd]; rfl) (by rw [hd]; decide) hpa
        (by rw [hp, hv]; decide)
      rw [h3]
      show pan_view x.view (vbase x.player) = ⟨2, 0⟩
      rw [hp, hv]
      decide
    have hview : sB3.view = (⟨2, 0⟩ : vec_t) := by
      have hd : sB3 = update_game sA inp0 (update_game sA inpR (update_game sA inp0 sA)) := rfl
      rw [hd, h1, h2]
      exact hstep3 _ (by rw [(hproj _ _).1]; decide) (by rw [(hproj _ _).2.1]; decide)
        (by rw [(hproj _ _).2.2.1]; decide) (by rw [(hproj _ _).2.2.2]; decide)
    intro hc
    rw [hview] at hc
    exact absurd hc (by decide)


end Xorx
